import Mathlib

/-!
gonexus: the repository script builder (`rm/groovyRepository.go`) and the
remediation client (`iq/componentsRemediation.go`).

A shallow embedding of the two source files, followed by the theorems that
settle the claims of the specification against them.

Conventions of the embedding

* A Go `error` is `Option String`: `none` is `nil`, `some m` is a non-nil error
  whose `Error()` text is `m`.
* A Go function returning `(T, error)` whose two results are exclusive is an
  `Except String T`.
* Calls to remote collaborators are recorded in an explicit trace that is
  returned next to the result, so that "no call was made" and "exactly one call
  was made" are statements about a list.
* The standard library pieces the source relies on (`fmt.Sprintf`/`fmt.Errorf`
  with the verbs `%s` and `%v`, and the fragment of `text/template` used by the
  36 statement templates) are embedded as small interpreters that run on the
  very strings of the source.
-/

/-- A Go `error` value: `none` is `nil`, `some m` a non-nil error with message `m`. -/
abbrev error := Option String

/-! ## `fmt`: the verbs `%s` and `%v` -/

namespace fmt

/-- An operand handed to `Sprintf`/`Errorf`: a string or an `error` interface value. -/
inductive Arg where
  | str (s : String)
  | err (e : error)
deriving DecidableEq, Repr

/-- A format string cut into literal runs and verbs. -/
inductive Seg where
  | lit (s : String)
  | verb (c : Char)
deriving DecidableEq, Repr

/-- Close the literal run collected so far (kept in reverse). -/
def flush (acc : List Char) (segs : List Seg) : List Seg :=
  if acc.isEmpty then segs else Seg.lit (String.mk acc.reverse) :: segs

/-- Scan a format string: `%%` is a literal percent sign, `%c` is the verb `c`,
a trailing lone `%` is the verb-less directive Go reports as `%!(NOVERB)`. -/
def scan : (acc : List Char) → List Char → List Seg
  | acc, [] => flush acc []
  | acc, '%' :: '%' :: rest => scan ('%' :: acc) rest
  | acc, '%' :: c :: rest => flush acc (Seg.verb c :: scan [] rest)
  | acc, ['%'] => flush acc [Seg.lit "%!(NOVERB)"]
  | acc, c :: rest => scan (c :: acc) rest

/-- How one operand prints under a verb. `%v` and `%s` print a string as
itself and a non-nil error as its `Error()` text; a nil error prints as `<nil>`
under `%v` and as `%!s(<nil>)` under `%s`. The source uses no other verb; one is
echoed with Go's bad-verb marker `%!c(...)` around the operand text. -/
def formatArg (c : Char) : Arg → String
  | .str s => if c = 'v' ∨ c = 's' then s else "%!" ++ String.singleton c ++ "(string=" ++ s ++ ")"
  | .err (some m) => if c = 'v' ∨ c = 's' then m else "%!" ++ String.singleton c ++ "(" ++ m ++ ")"
  | .err none => if c = 'v' then "<nil>" else "%!" ++ String.singleton c ++ "(<nil>)"

/-- Print the segments, consuming one operand per verb; a verb with no operand
left prints as `%!c(MISSING)`. -/
def render : List Seg → List Arg → String
  | [], _ => ""
  | .lit s :: rest, args => s ++ render rest args
  | .verb c :: rest, [] => "%!" ++ String.singleton c ++ "(MISSING)" ++ render rest []
  | .verb c :: rest, a :: args => formatArg c a ++ render rest args

/-- The function `fmt.Sprintf`, for calls that pass exactly as many operands as
the format has verbs (every call in the source does). -/
def Sprintf (format : String) (args : List Arg) : String :=
  render (scan [] format.data) args

/-- The function `fmt.Errorf`: always a non-nil error carrying the formatted text. -/
def Errorf (format : String) (args : List Arg) : error :=
  some (Sprintf format args)

end fmt

/-! ## `text/template`: the fragment used by the statement templates -/

namespace template

/-- The argument of an action: the cursor `.` or a field of it, `.Name`. -/
inductive Pipe where
  | dot
  | field (name : String)
deriving DecidableEq, Repr

/-- Parse-tree nodes: literal text, a printing action, and a `with` block. -/
inductive Node where
  | text (s : String)
  | action (pipe : Pipe)
  | with_ (pipe : Pipe) (body : List Node)
deriving Repr

/-- Lexer output: a run of text or the inside of a delimiter pair. -/
inductive Item where
  | text (s : List Char)
  | action (s : List Char)
deriving DecidableEq, Repr

/-- An emitted text item, unless the run is empty. -/
def pushText (acc : List Char) (items : List Item) : List Item :=
  if acc.isEmpty then items else Item.text acc.reverse :: items

/-- Cut the template text at the delimiter pairs. An action left open at the
end of the input is a lexing error. -/
def lex : (inAction : Bool) → (acc : List Char) → List Char → Except String (List Item)
  | false, acc, [] => .ok (pushText acc [])
  | true, _, [] => .error "unclosed action"
  | false, acc, '{' :: '{' :: rest =>
    match lex true [] rest with
    | .ok items => .ok (pushText acc items)
    | .error e => .error e
  | true, acc, '}' :: '}' :: rest =>
    match lex false [] rest with
    | .ok items => .ok (Item.action acc.reverse :: items)
    | .error e => .error e
  | inAction, acc, c :: rest => lex inAction (c :: acc) rest

/-- Strip spaces at both ends. -/
def trim (s : List Char) : List Char :=
  ((s.dropWhile (· = ' ')).reverse.dropWhile (· = ' ')).reverse

/-- Characters of a field name. -/
def isIdentChar (c : Char) : Bool :=
  c.isAlphanum || c = '_'

/-- The operand of an action: `.` or `.Field`. -/
def parsePipe (s : List Char) : Except String Pipe :=
  match trim s with
  | ['.'] => .ok Pipe.dot
  | '.' :: name =>
    if name.all isIdentChar then .ok (Pipe.field (String.mk name))
    else .error "bad character in action"
  | _ => .error "unsupported action"

/-- What an action is: a block end, a block opener, or a printing action. -/
inductive Act where
  | end_
  | with_ (pipe : Pipe)
  | print (pipe : Pipe)
deriving DecidableEq, Repr

/-- Classify the inside of a delimiter pair. -/
def parseAction (s : List Char) : Except String Act :=
  match trim s with
  | ['e', 'n', 'd'] => .ok Act.end_
  | 'w' :: 'i' :: 't' :: 'h' :: ' ' :: rest =>
    match parsePipe rest with
    | .ok p => .ok (Act.with_ p)
    | .error e => .error e
  | other =>
    match parsePipe other with
    | .ok p => .ok (Act.print p)
    | .error e => .error e

/-- Build the tree from the items. `stack` holds, for every `with` block still
open, its operand and the nodes that preceded it (in reverse); `cur` holds the
nodes of the innermost open list (in reverse). -/
def build : (stack : List (Pipe × List Node)) → (cur : List Node) → List Item →
    Except String (List Node)
  | [], cur, [] => .ok cur.reverse
  | _ :: _, _, [] => .error "unexpected EOF"
  | stack, cur, Item.text s :: rest => build stack (Node.text (String.mk s) :: cur) rest
  | stack, cur, Item.action a :: rest =>
    match parseAction a with
    | .error e => .error e
    | .ok (Act.print p) => build stack (Node.action p :: cur) rest
    | .ok (Act.with_ p) => build ((p, cur) :: stack) [] rest
    | .ok Act.end_ =>
      match stack with
      | [] => .error "unexpected end"
      | (p, outer) :: stack1 => build stack1 (Node.with_ p cur.reverse :: outer) rest

/-- A template: its name and, once parsed, its tree. -/
structure Template where
  name : String
  Tree : Option (List Node)
deriving Repr

/-- The function `template.New`: a named template with no tree yet. -/
def New (name : String) : Template :=
  { name := name, Tree := none }

/-- The method `Parse`: lex and build; the empty text parses to the empty tree. -/
def Template.Parse (t : Template) (text : String) : Except String Template :=
  match lex false [] text.data with
  | .error e => .error e
  | .ok items =>
    match build [] [] items with
    | .error e => .error e
    | .ok nodes => .ok { t with Tree := some nodes }

/-- Field values that occur in the configs: a string, a bool, a slice of strings. -/
inductive Scalar where
  | str (s : String)
  | bool (b : Bool)
  | strs (l : List String)
deriving DecidableEq, Repr

/-- The data a template is executed against, as reflection sees it: a scalar or
a struct with its exported fields in declaration order. -/
inductive Value where
  | scalar (v : Scalar)
  | struct (fields : List (String × Scalar))
deriving DecidableEq, Repr

/-- Evaluate an operand at the cursor; a field of something that has no such
field is an execution error. -/
def evalPipe (dot : Value) : Pipe → Except String Value
  | .dot => .ok dot
  | .field name =>
    match dot with
    | .struct fields =>
      match fields.lookup name with
      | some v => .ok (Value.scalar v)
      | none => .error ("can't evaluate field " ++ name)
    | .scalar _ => .error ("can't evaluate field " ++ name)

/-- How `fmt.Fprint` shows a scalar: a string verbatim, a bool as `true` or
`false`, a slice as its elements separated by single spaces inside square
brackets. -/
def printScalar : Scalar → String
  | .str s => s
  | .bool b => if b then "true" else "false"
  | .strs l => "[" ++ " ".intercalate l ++ "]"

/-- How `fmt.Fprint` shows a value; a struct prints its fields inside braces. -/
def printValue : Value → String
  | .scalar v => printScalar v
  | .struct fields => "\x7b" ++ " ".intercalate (fields.map (fun f => printScalar f.2)) ++ "\x7d"

/-- Truth of a value for `with`: the empty string, `false` and the empty
slice are false; a struct is always true. -/
def truth : Value → Bool
  | .scalar (.str s) => decide (s ≠ "")
  | .scalar (.bool b) => b
  | .scalar (.strs l) => !l.isEmpty
  | .struct _ => true

mutual
/-- Execute one node at the cursor, returning the text it writes. -/
def walk (dot : Value) : Node → Except String String
  | .text s => .ok s
  | .action p =>
    match evalPipe dot p with
    | .error e => .error e
    | .ok v => .ok (printValue v)
  | .with_ p body =>
    match evalPipe dot p with
    | .error e => .error e
    | .ok v => if truth v then walkList v body else .ok ""
/-- Execute a list of nodes in order, concatenating what they write. -/
def walkList (dot : Value) : List Node → Except String String
  | [] => .ok ""
  | n :: rest =>
    match walk dot n with
    | .error e => .error e
    | .ok a =>
      match walkList dot rest with
      | .error e => .error e
      | .ok b => .ok (a ++ b)
end

/-- The method `Execute`: a template that was never parsed is an error,
otherwise the tree is walked with the data as cursor. -/
def Template.Execute (t : Template) (data : Value) : Except String String :=
  match t.Tree with
  | none => .error (t.name ++ " is an incomplete or empty template")
  | some root => walkList data root

end template

/-! ## Package `nexusrm`: `rm/groovyRepository.go` -/

namespace nexusrm

/-- Modelled from the spec: the declaration of `repositoryFormat` and of its
twelve constants is not among the source files. The spec gives the twelve
ecosystems (Maven, Npm, Nuget, Apt, Docker, Golang, Raw, Rubygems, Bower, Pypi,
Yum, GitLfs) and speaks of format values outside them: `other` stands for every
such value of the underlying Go type. -/
inductive repositoryFormat where
  | Maven | Npm | Nuget | Apt | Docker | Golang | Raw | Rubygems | Bower | Pypi | Yum | GitLfs
  | other (code : Nat)
deriving DecidableEq, Repr

/-- The constant `groovyCreateHostedMaven`. -/
def groovyCreateHostedMaven : String :=
  "repository.createMavenHosted('\x7b\x7b.Name\x7d\x7d'\x7b\x7bwith .BlobStore\x7d\x7d, '\x7b\x7b.\x7d\x7d'\x7b\x7bend\x7d\x7d)"

/-- The constant `groovyCreateHostedNpm`. -/
def groovyCreateHostedNpm : String :=
  "repository.createNpmHosted('\x7b\x7b.Name\x7d\x7d'\x7b\x7bwith .BlobStore\x7d\x7d, '\x7b\x7b.\x7d\x7d'\x7b\x7bend\x7d\x7d)"

/-- The constant `groovyCreateHostedNuget`. -/
def groovyCreateHostedNuget : String :=
  "repository.createNugetHosted('\x7b\x7b.Name\x7d\x7d'\x7b\x7bwith .BlobStore\x7d\x7d, '\x7b\x7b.\x7d\x7d'\x7b\x7bend\x7d\x7d)"

/-- The constant `groovyCreateHostedApt`. -/
def groovyCreateHostedApt : String :=
  "repository.createAptHosted('\x7b\x7b.Name\x7d\x7d'\x7b\x7bwith .BlobStore\x7d\x7d, '\x7b\x7b.\x7d\x7d'\x7b\x7bend\x7d\x7d)"

/-- The constant `groovyCreateHostedDocker`. -/
def groovyCreateHostedDocker : String :=
  "repository.createDockerHosted('\x7b\x7b.Name\x7d\x7d'\x7b\x7bwith .BlobStore\x7d\x7d, '\x7b\x7b.\x7d\x7d'\x7b\x7bend\x7d\x7d)"

/-- The constant `groovyCreateHostedGolang`. -/
def groovyCreateHostedGolang : String :=
  "repository.createGolangHosted('\x7b\x7b.Name\x7d\x7d'\x7b\x7bwith .BlobStore\x7d\x7d, '\x7b\x7b.\x7d\x7d'\x7b\x7bend\x7d\x7d)"

/-- The constant `groovyCreateHostedRaw`. -/
def groovyCreateHostedRaw : String :=
  "repository.createRawHosted('\x7b\x7b.Name\x7d\x7d'\x7b\x7bwith .BlobStore\x7d\x7d, '\x7b\x7b.\x7d\x7d'\x7b\x7bend\x7d\x7d)"

/-- The constant `groovyCreateHostedRubygems`. -/
def groovyCreateHostedRubygems : String :=
  "repository.createRubygemsHosted('\x7b\x7b.Name\x7d\x7d'\x7b\x7bwith .BlobStore\x7d\x7d, '\x7b\x7b.\x7d\x7d'\x7b\x7bend\x7d\x7d)"

/-- The constant `groovyCreateHostedBower`. -/
def groovyCreateHostedBower : String :=
  "repository.createBowerHosted('\x7b\x7b.Name\x7d\x7d'\x7b\x7bwith .BlobStore\x7d\x7d, '\x7b\x7b.\x7d\x7d'\x7b\x7bend\x7d\x7d)"

/-- The constant `groovyCreateHostedPypi`. -/
def groovyCreateHostedPypi : String :=
  "repository.createPypiHosted('\x7b\x7b.Name\x7d\x7d'\x7b\x7bwith .BlobStore\x7d\x7d, '\x7b\x7b.\x7d\x7d'\x7b\x7bend\x7d\x7d)"

/-- The constant `groovyCreateHostedYum`. -/
def groovyCreateHostedYum : String :=
  "repository.createYumHosted('\x7b\x7b.Name\x7d\x7d'\x7b\x7bwith .BlobStore\x7d\x7d, '\x7b\x7b.\x7d\x7d'\x7b\x7bend\x7d\x7d)"

/-- The constant `groovyCreateHostedGitLfs`. -/
def groovyCreateHostedGitLfs : String :=
  "repository.createGitLfsHosted('\x7b\x7b.Name\x7d\x7d'\x7b\x7bwith .BlobStore\x7d\x7d, '\x7b\x7b.\x7d\x7d'\x7b\x7bend\x7d\x7d)"

/-- The constant `groovyCreateProxyMaven`. -/
def groovyCreateProxyMaven : String :=
  "repository.createMavenProxy('\x7b\x7b.Name\x7d\x7d'\x7b\x7bwith .RemoteURL\x7d\x7d, '\x7b\x7b.\x7d\x7d'\x7b\x7bend\x7d\x7d\x7b\x7bwith .BlobStore\x7d\x7d, '\x7b\x7b.\x7d\x7d'\x7b\x7bend\x7d\x7d)"

/-- The constant `groovyCreateProxyNpm`. -/
def groovyCreateProxyNpm : String :=
  "repository.createNpmProxy('\x7b\x7b.Name\x7d\x7d'\x7b\x7bwith .RemoteURL\x7d\x7d, '\x7b\x7b.\x7d\x7d'\x7b\x7bend\x7d\x7d\x7b\x7bwith .BlobStore\x7d\x7d, '\x7b\x7b.\x7d\x7d'\x7b\x7bend\x7d\x7d)"

/-- The constant `groovyCreateProxyNuget`. -/
def groovyCreateProxyNuget : String :=
  "repository.createNugetProxy('\x7b\x7b.Name\x7d\x7d'\x7b\x7bwith .RemoteURL\x7d\x7d, '\x7b\x7b.\x7d\x7d'\x7b\x7bend\x7d\x7d\x7b\x7bwith .BlobStore\x7d\x7d, '\x7b\x7b.\x7d\x7d'\x7b\x7bend\x7d\x7d)"

/-- The constant `groovyCreateProxyApt`. -/
def groovyCreateProxyApt : String :=
  "repository.createAptProxy('\x7b\x7b.Name\x7d\x7d'\x7b\x7bwith .RemoteURL\x7d\x7d, '\x7b\x7b.\x7d\x7d'\x7b\x7bend\x7d\x7d\x7b\x7bwith .BlobStore\x7d\x7d, '\x7b\x7b.\x7d\x7d'\x7b\x7bend\x7d\x7d)"

/-- The constant `groovyCreateProxyDocker`. -/
def groovyCreateProxyDocker : String :=
  "repository.createDockerProxy('\x7b\x7b.Name\x7d\x7d'\x7b\x7bwith .RemoteURL\x7d\x7d, '\x7b\x7b.\x7d\x7d'\x7b\x7bend\x7d\x7d\x7b\x7bwith .BlobStore\x7d\x7d, '\x7b\x7b.\x7d\x7d'\x7b\x7bend\x7d\x7d)"

/-- The constant `groovyCreateProxyGolang`. -/
def groovyCreateProxyGolang : String :=
  "repository.createGolangProxy('\x7b\x7b.Name\x7d\x7d'\x7b\x7bwith .RemoteURL\x7d\x7d, '\x7b\x7b.\x7d\x7d'\x7b\x7bend\x7d\x7d\x7b\x7bwith .BlobStore\x7d\x7d, '\x7b\x7b.\x7d\x7d'\x7b\x7bend\x7d\x7d)"

/-- The constant `groovyCreateProxyRaw`. -/
def groovyCreateProxyRaw : String :=
  "repository.createRawProxy('\x7b\x7b.Name\x7d\x7d'\x7b\x7bwith .RemoteURL\x7d\x7d, '\x7b\x7b.\x7d\x7d'\x7b\x7bend\x7d\x7d\x7b\x7bwith .BlobStore\x7d\x7d, '\x7b\x7b.\x7d\x7d'\x7b\x7bend\x7d\x7d)"

/-- The constant `groovyCreateProxyRubygems`. -/
def groovyCreateProxyRubygems : String :=
  "repository.createRubygemsProxy('\x7b\x7b.Name\x7d\x7d'\x7b\x7bwith .RemoteURL\x7d\x7d, '\x7b\x7b.\x7d\x7d'\x7b\x7bend\x7d\x7d\x7b\x7bwith .BlobStore\x7d\x7d, '\x7b\x7b.\x7d\x7d'\x7b\x7bend\x7d\x7d)"

/-- The constant `groovyCreateProxyBower`. -/
def groovyCreateProxyBower : String :=
  "repository.createBowerProxy('\x7b\x7b.Name\x7d\x7d'\x7b\x7bwith .RemoteURL\x7d\x7d, '\x7b\x7b.\x7d\x7d'\x7b\x7bend\x7d\x7d\x7b\x7bwith .BlobStore\x7d\x7d, '\x7b\x7b.\x7d\x7d'\x7b\x7bend\x7d\x7d)"

/-- The constant `groovyCreateProxyPypi`. -/
def groovyCreateProxyPypi : String :=
  "repository.createPypiProxy('\x7b\x7b.Name\x7d\x7d'\x7b\x7bwith .RemoteURL\x7d\x7d, '\x7b\x7b.\x7d\x7d'\x7b\x7bend\x7d\x7d\x7b\x7bwith .BlobStore\x7d\x7d, '\x7b\x7b.\x7d\x7d'\x7b\x7bend\x7d\x7d)"

/-- The constant `groovyCreateProxyYum`. -/
def groovyCreateProxyYum : String :=
  "repository.createYumProxy('\x7b\x7b.Name\x7d\x7d'\x7b\x7bwith .RemoteURL\x7d\x7d, '\x7b\x7b.\x7d\x7d'\x7b\x7bend\x7d\x7d\x7b\x7bwith .BlobStore\x7d\x7d, '\x7b\x7b.\x7d\x7d'\x7b\x7bend\x7d\x7d)"

/-- The constant `groovyCreateProxyGitLfs`. -/
def groovyCreateProxyGitLfs : String :=
  "repository.createGitLfsProxy('\x7b\x7b.Name\x7d\x7d'\x7b\x7bwith .RemoteURL\x7d\x7d, '\x7b\x7b.\x7d\x7d'\x7b\x7bend\x7d\x7d\x7b\x7bwith .BlobStore\x7d\x7d, '\x7b\x7b.\x7d\x7d'\x7b\x7bend\x7d\x7d)"

/-- The constant `groovyCreateGroupMaven`. -/
def groovyCreateGroupMaven : String :=
  "repository.createMavenGroup('\x7b\x7b.Name\x7d\x7d'\x7b\x7bwith .Members\x7d\x7d, '\x7b\x7b.\x7d\x7d'\x7b\x7bend\x7d\x7d\x7b\x7bwith .BlobStore\x7d\x7d, '\x7b\x7b.\x7d\x7d'\x7b\x7bend\x7d\x7d)"

/-- The constant `groovyCreateGroupNpm`. -/
def groovyCreateGroupNpm : String :=
  "repository.createNpmGroup('\x7b\x7b.Name\x7d\x7d'\x7b\x7bwith .Members\x7d\x7d, '\x7b\x7b.\x7d\x7d'\x7b\x7bend\x7d\x7d\x7b\x7bwith .BlobStore\x7d\x7d, '\x7b\x7b.\x7d\x7d'\x7b\x7bend\x7d\x7d)"

/-- The constant `groovyCreateGroupNuget`. -/
def groovyCreateGroupNuget : String :=
  "repository.createNugetGroup('\x7b\x7b.Name\x7d\x7d'\x7b\x7bwith .Members\x7d\x7d, '\x7b\x7b.\x7d\x7d'\x7b\x7bend\x7d\x7d\x7b\x7bwith .BlobStore\x7d\x7d, '\x7b\x7b.\x7d\x7d'\x7b\x7bend\x7d\x7d)"

/-- The constant `groovyCreateGroupApt`. -/
def groovyCreateGroupApt : String :=
  "repository.createAptGroup('\x7b\x7b.Name\x7d\x7d'\x7b\x7bwith .Members\x7d\x7d, '\x7b\x7b.\x7d\x7d'\x7b\x7bend\x7d\x7d\x7b\x7bwith .BlobStore\x7d\x7d, '\x7b\x7b.\x7d\x7d'\x7b\x7bend\x7d\x7d)"

/-- The constant `groovyCreateGroupDocker`. -/
def groovyCreateGroupDocker : String :=
  "repository.createDockerGroup('\x7b\x7b.Name\x7d\x7d'\x7b\x7bwith .Members\x7d\x7d, '\x7b\x7b.\x7d\x7d'\x7b\x7bend\x7d\x7d\x7b\x7bwith .BlobStore\x7d\x7d, '\x7b\x7b.\x7d\x7d'\x7b\x7bend\x7d\x7d)"

/-- The constant `groovyCreateGroupGolang`. -/
def groovyCreateGroupGolang : String :=
  "repository.createGolangGroup('\x7b\x7b.Name\x7d\x7d'\x7b\x7bwith .Members\x7d\x7d, '\x7b\x7b.\x7d\x7d'\x7b\x7bend\x7d\x7d\x7b\x7bwith .BlobStore\x7d\x7d, '\x7b\x7b.\x7d\x7d'\x7b\x7bend\x7d\x7d)"

/-- The constant `groovyCreateGroupRaw`. -/
def groovyCreateGroupRaw : String :=
  "repository.createRawGroup('\x7b\x7b.Name\x7d\x7d'\x7b\x7bwith .Members\x7d\x7d, '\x7b\x7b.\x7d\x7d'\x7b\x7bend\x7d\x7d\x7b\x7bwith .BlobStore\x7d\x7d, '\x7b\x7b.\x7d\x7d'\x7b\x7bend\x7d\x7d)"

/-- The constant `groovyCreateGroupRubygems`. -/
def groovyCreateGroupRubygems : String :=
  "repository.createRubygemsGroup('\x7b\x7b.Name\x7d\x7d'\x7b\x7bwith .Members\x7d\x7d, '\x7b\x7b.\x7d\x7d'\x7b\x7bend\x7d\x7d\x7b\x7bwith .BlobStore\x7d\x7d, '\x7b\x7b.\x7d\x7d'\x7b\x7bend\x7d\x7d)"

/-- The constant `groovyCreateGroupBower`. -/
def groovyCreateGroupBower : String :=
  "repository.createBowerGroup('\x7b\x7b.Name\x7d\x7d'\x7b\x7bwith .Members\x7d\x7d, '\x7b\x7b.\x7d\x7d'\x7b\x7bend\x7d\x7d\x7b\x7bwith .BlobStore\x7d\x7d, '\x7b\x7b.\x7d\x7d'\x7b\x7bend\x7d\x7d)"

/-- The constant `groovyCreateGroupPypi`. -/
def groovyCreateGroupPypi : String :=
  "repository.createPypiGroup('\x7b\x7b.Name\x7d\x7d'\x7b\x7bwith .Members\x7d\x7d, '\x7b\x7b.\x7d\x7d'\x7b\x7bend\x7d\x7d\x7b\x7bwith .BlobStore\x7d\x7d, '\x7b\x7b.\x7d\x7d'\x7b\x7bend\x7d\x7d)"

/-- The constant `groovyCreateGroupYum`. -/
def groovyCreateGroupYum : String :=
  "repository.createYumGroup('\x7b\x7b.Name\x7d\x7d'\x7b\x7bwith .Members\x7d\x7d, '\x7b\x7b.\x7d\x7d'\x7b\x7bend\x7d\x7d\x7b\x7bwith .BlobStore\x7d\x7d, '\x7b\x7b.\x7d\x7d'\x7b\x7bend\x7d\x7d)"

/-- The constant `groovyCreateGroupGitLfs`. -/
def groovyCreateGroupGitLfs : String :=
  "repository.createGitLfsGroup('\x7b\x7b.Name\x7d\x7d'\x7b\x7bwith .Members\x7d\x7d, '\x7b\x7b.\x7d\x7d'\x7b\x7bend\x7d\x7d\x7b\x7bwith .BlobStore\x7d\x7d, '\x7b\x7b.\x7d\x7d'\x7b\x7bend\x7d\x7d)"

/-- Modelled from the spec: whether a format value is one of the twelve
enumerated ecosystems. -/
def repositoryFormat.isEnumerated : repositoryFormat → Bool
  | .other _ => false
  | _ => true

/-- The struct `repositoryHosted`. -/
structure repositoryHosted where
  Name : String
  BlobStore : String
  StrictContentTypeValidation : Bool
deriving DecidableEq, Repr

/-- The struct `repositoryProxy`. -/
structure repositoryProxy where
  Name : String
  RemoteURL : String
  BlobStore : String
  StrictContentTypeValidation : Bool
deriving DecidableEq, Repr

/-- The struct `repositoryGroup`; a nil and an empty `Members` slice are both `[]`. -/
structure repositoryGroup where
  Name : String
  BlobStore : String
  Members : List String
deriving DecidableEq, Repr

/-- What `text/template` sees of a `repositoryHosted` through reflection. -/
def repositoryHosted.toValue (c : repositoryHosted) : template.Value :=
  .struct [("Name", .str c.Name), ("BlobStore", .str c.BlobStore),
    ("StrictContentTypeValidation", .bool c.StrictContentTypeValidation)]

/-- What `text/template` sees of a `repositoryProxy` through reflection. -/
def repositoryProxy.toValue (c : repositoryProxy) : template.Value :=
  .struct [("Name", .str c.Name), ("RemoteURL", .str c.RemoteURL), ("BlobStore", .str c.BlobStore),
    ("StrictContentTypeValidation", .bool c.StrictContentTypeValidation)]

/-- What `text/template` sees of a `repositoryGroup` through reflection. -/
def repositoryGroup.toValue (c : repositoryGroup) : template.Value :=
  .struct [("Name", .str c.Name), ("BlobStore", .str c.BlobStore), ("Members", .strs c.Members)]

/-- Modelled from the spec: the `Script` type is not among the source files; a
script is submitted as its body (the spec's `scriptBody`). -/
structure Script where
  Content : String
deriving DecidableEq, Repr

/-- Modelled from the spec: `newAnonGroovyScript` is not among the source files;
it wraps the rendered statement as the body of a one-shot script. -/
def newAnonGroovyScript (content : String) : Script :=
  { Content := content }

/-- Modelled from the spec: the remote execution collaborator
`runScriptOnce(scriptBody, params) -> (resultBytes, error)`, a black box; the
source always passes `nil` parameters. -/
structure RM where
  ScriptRunOnce : Script → Except String (List UInt8)

/-- The observable behaviour of one `Create...Repository` call: the scripts it
submitted to `ScriptRunOnce`, in order, and the `error` it returned. -/
structure Outcome where
  submitted : List Script
  err : error
deriving DecidableEq, Repr

/-- The `error` half of a `(result, error)` pair. -/
def errOf {α : Type} : Except String α → error
  | .ok _ => none
  | .error e => some e

/-- The `switch format` of `CreateHostedRepository`: `groovyTmpl` is declared
without a value (the empty string) and the switch has no default case. -/
def hostedTemplate : repositoryFormat → String
  | .Maven => groovyCreateHostedMaven
  | .Npm => groovyCreateHostedNpm
  | .Nuget => groovyCreateHostedNuget
  | .Apt => groovyCreateHostedApt
  | .Docker => groovyCreateHostedDocker
  | .Golang => groovyCreateHostedGolang
  | .Raw => groovyCreateHostedRaw
  | .Rubygems => groovyCreateHostedRubygems
  | .Bower => groovyCreateHostedBower
  | .Pypi => groovyCreateHostedPypi
  | .Yum => groovyCreateHostedYum
  | .GitLfs => groovyCreateHostedGitLfs
  | .other _ => ""

/-- The function `CreateHostedRepository`. -/
def CreateHostedRepository (rm : RM) (format : repositoryFormat) (config : repositoryHosted) :
    Outcome :=
  let groovyTmpl := hostedTemplate format
  match (template.New "hosted").Parse groovyTmpl with
  | .error err =>
    { submitted := [], err := fmt.Errorf "could not parse template: %v" [.err (some err)] }
  | .ok tmpl =>
    match tmpl.Execute config.toValue with
    | .error err =>
      { submitted := [],
        err := fmt.Errorf "could not create hosted repository from template: %v" [.err (some err)] }
    | .ok buf =>
      let script := newAnonGroovyScript buf
      let err := errOf (rm.ScriptRunOnce script)
      { submitted := [script],
        err := fmt.Errorf "could not create hosted repository: %v" [.err err] }

/-- The `switch format` of `CreateProxyRepository`: `groovyTmpl` is declared
without a value (the empty string) and the switch has no default case. -/
def proxyTemplate : repositoryFormat → String
  | .Maven => groovyCreateProxyMaven
  | .Npm => groovyCreateProxyNpm
  | .Nuget => groovyCreateProxyNuget
  | .Apt => groovyCreateProxyApt
  | .Docker => groovyCreateProxyDocker
  | .Golang => groovyCreateProxyGolang
  | .Raw => groovyCreateProxyRaw
  | .Rubygems => groovyCreateProxyRubygems
  | .Bower => groovyCreateProxyBower
  | .Pypi => groovyCreateProxyPypi
  | .Yum => groovyCreateProxyYum
  | .GitLfs => groovyCreateProxyGitLfs
  | .other _ => ""

/-- The function `CreateProxyRepository`. -/
def CreateProxyRepository (rm : RM) (format : repositoryFormat) (config : repositoryProxy) :
    Outcome :=
  let groovyTmpl := proxyTemplate format
  match (template.New "proxy").Parse groovyTmpl with
  | .error err =>
    { submitted := [], err := fmt.Errorf "could not parse template: %v" [.err (some err)] }
  | .ok tmpl =>
    match tmpl.Execute config.toValue with
    | .error err =>
      { submitted := [],
        err := fmt.Errorf "could not create proxy repository from template: %v" [.err (some err)] }
    | .ok buf =>
      let script := newAnonGroovyScript buf
      let err := errOf (rm.ScriptRunOnce script)
      { submitted := [script],
        err := fmt.Errorf "could not create proxy repository: %v" [.err err] }

/-- The `switch format` of `CreateGroupRepository`: `groovyTmpl` is declared
without a value (the empty string) and the switch has no default case. -/
def groupTemplate : repositoryFormat → String
  | .Maven => groovyCreateGroupMaven
  | .Npm => groovyCreateGroupNpm
  | .Nuget => groovyCreateGroupNuget
  | .Apt => groovyCreateGroupApt
  | .Docker => groovyCreateGroupDocker
  | .Golang => groovyCreateGroupGolang
  | .Raw => groovyCreateGroupRaw
  | .Rubygems => groovyCreateGroupRubygems
  | .Bower => groovyCreateGroupBower
  | .Pypi => groovyCreateGroupPypi
  | .Yum => groovyCreateGroupYum
  | .GitLfs => groovyCreateGroupGitLfs
  | .other _ => ""

/-- The function `CreateGroupRepository`. -/
def CreateGroupRepository (rm : RM) (format : repositoryFormat) (config : repositoryGroup) :
    Outcome :=
  let groovyTmpl := groupTemplate format
  match (template.New "group").Parse groovyTmpl with
  | .error err =>
    { submitted := [], err := fmt.Errorf "could not parse template: %v" [.err (some err)] }
  | .ok tmpl =>
    match tmpl.Execute config.toValue with
    | .error err =>
      { submitted := [],
        err := fmt.Errorf "could not create group repository from template: %v" [.err (some err)] }
    | .ok buf =>
      let script := newAnonGroovyScript buf
      let err := errOf (rm.ScriptRunOnce script)
      { submitted := [script],
        err := fmt.Errorf "could not create group repository: %v" [.err err] }

end nexusrm

/-! ## Package `nexusiq`: `iq/componentsRemediation.go` -/

namespace nexusiq

/-- The constant `restRemediationByApp`. -/
def restRemediationByApp : String :=
  "api/v2/components/remediation/application/%s?stageId=%s"

/-- The constant `restRemediationByOrg`. -/
def restRemediationByOrg : String :=
  "api/v2/components/remediation/organization/%s?stageId=%s"

/-- The constant `remediationTypeNoViolations`. -/
def remediationTypeNoViolations : String :=
  "next-no-violations"

/-- The constant `remediationTypeNonFailing`. -/
def remediationTypeNonFailing : String :=
  "next-non-failing"

/-- The struct `remediationData`. The type `C` stands for `Component`, which is
declared outside the source files and is opaque here. -/
structure remediationData (C : Type) where
  Component : C
deriving DecidableEq, Repr

/-- The struct `remediationVersionChange`; its field `Type` is written `Type_`. -/
structure remediationVersionChange (C : Type) where
  Type_ : String
  Data : remediationData C
deriving DecidableEq, Repr

/-- The struct `Remediation`; a nil and an empty slice are both `[]`. -/
structure Remediation (C : Type) where
  VersionChanges : List (remediationVersionChange C)
deriving DecidableEq, Repr

/-- The method `remediationData.Equals`. `same` is the outcome of the pointer
test `a == b`; `ceq` is `Component.Equals`, declared outside the source files
and taken as a parameter on the two components. -/
def remediationData.Equals {C : Type} (ceq : C → C → Bool) (same : Bool)
    (a b : remediationData C) : Bool :=
  if same then true
  else if !(ceq a.Component b.Component) then false
  else true

/-- The method `remediationVersionChange.Equals`. `same` is the outcome of the
pointer test `a == b`. The nested call compares `&a.Data` with `&b.Data`, two
field addresses that coincide exactly when `a` and `b` do, so it is handed the
same flag. -/
def remediationVersionChange.Equals {C : Type} (ceq : C → C → Bool) (same : Bool)
    (a b : remediationVersionChange C) : Bool :=
  if same then true
  else if a.Type_ ≠ b.Type_ then false
  else if !(remediationData.Equals ceq same a.Data b.Data) then false
  else true

/-- The memory that holds `Remediation` objects: the object at address `p` is
the `p`-th entry. -/
abbrev Heap (C : Type) := List (Remediation C)

/-- A `*Remediation`: `none` is the nil pointer, `some p` the address `p`. -/
abbrev Ptr := Option Nat

/-- Dereference a pointer; `none` is the nil-dereference panic. -/
def deref {C : Type} (h : Heap C) : Ptr → Option (Remediation C)
  | none => none
  | some p => h[p]?

/-- The `for i, v := range a.VersionChanges` loop of `Remediation.Equals`, from
index `i` on, with `vs` the elements of `a.VersionChanges` still to visit and
`bs` the whole of `b.VersionChanges`. The receiver of the nested call is the
loop variable `v`, a copy whose address is that of no element of `bs`, so the
nested pointer test is false. Indexing `bs` out of range panics (`none`). -/
def Remediation.Equals.loop {C : Type} (ceq : C → C → Bool)
    (bs : List (remediationVersionChange C)) :
    Nat → List (remediationVersionChange C) → Option Bool
  | _, [] => some true
  | i, v :: vs =>
    match bs[i]? with
    | none => none
    | some bi =>
      if !(remediationVersionChange.Equals ceq false v bi) then some false
      else Remediation.Equals.loop ceq bs (i + 1) vs

/-- The method `Remediation.Equals` on two pointers into the heap `h`. The
result `none` is a run-time panic (nil dereference or index out of range). -/
def Remediation.Equals {C : Type} (ceq : C → C → Bool) (h : Heap C) (a b : Ptr) : Option Bool :=
  if a = b then some true
  else
    match deref h a with
    | none => none
    | some ra =>
      match deref h b with
      | none => none
      | some rb =>
        if ra.VersionChanges.length ≠ rb.VersionChanges.length then some false
        else Remediation.Equals.loop ceq rb.VersionChanges 0 ra.VersionChanges

/-- The struct `remediationResponse`. -/
structure remediationResponse (C : Type) where
  Remediation : Remediation C
deriving DecidableEq, Repr

/-- Modelled from the spec: the `Application` type is not among the source
files; its `ID` is the resolved internal identifier, an opaque string handle. -/
structure Application where
  ID : String
deriving DecidableEq, Repr

/-- Modelled from the spec: the `Organization` type is not among the source
files; its `ID` is the resolved internal identifier, an opaque string handle. -/
structure Organization where
  ID : String
deriving DecidableEq, Repr

/-- Modelled from the spec: the external collaborators reached through the `IQ`
client, none of which is among the source files: `httpPost(path, body)`,
`lookupApplicationByPublicID(id)` and `lookupOrganizationByName(name)`. -/
structure IQ where
  Post : String → List UInt8 → Except String (List UInt8)
  GetApplicationByPublicID : String → Except String Application
  GetOrganizationByName : String → Except String Organization

/-- The two `encoding/json` calls of `getRemediation`, which depend on the
opaque `Component` type: `json.Marshal(component)` and `json.Unmarshal` into a
`remediationResponse`. -/
structure JSON (C : Type) where
  Marshal : C → Except String (List UInt8)
  Unmarshal : List UInt8 → Except String (remediationResponse C)

/-- The observable behaviour of one remediation call: the `iq.Post` calls it
made (endpoint and body), in order, and the `(Remediation, error)` it returned. -/
structure Result (C : Type) where
  posts : List (String × List UInt8)
  value : Remediation C
  err : error
deriving DecidableEq, Repr

/-- The function `getRemediation`. -/
def getRemediation {C : Type} (json : JSON C) (iq : IQ) (component : C) (endpoint : String) :
    Result C :=
  match json.Marshal component with
  | .error err =>
    { posts := [], value := { VersionChanges := [] },
      err := fmt.Errorf "could not build the request: %v" [.err (some err)] }
  | .ok request =>
    match iq.Post endpoint request with
    | .error err =>
      { posts := [(endpoint, request)], value := { VersionChanges := [] },
        err := fmt.Errorf "could not get remediation: %v" [.err (some err)] }
    | .ok body =>
      match json.Unmarshal body with
      | .error err =>
        { posts := [(endpoint, request)], value := { VersionChanges := [] },
          err := fmt.Errorf "could not parse remediation response: %v" [.err (some err)] }
      | .ok results =>
        { posts := [(endpoint, request)], value := results.Remediation, err := none }

/-- The function `GetRemediationByApp`. -/
def GetRemediationByApp {C : Type} (json : JSON C) (iq : IQ) (component : C)
    (stage applicationID : String) : Result C :=
  match iq.GetApplicationByPublicID applicationID with
  | .error err =>
    { posts := [], value := { VersionChanges := [] },
      err := fmt.Errorf "could not get application: %v" [.err (some err)] }
  | .ok app =>
    let endpoint := fmt.Sprintf restRemediationByApp [.str app.ID, .str stage]
    getRemediation json iq component endpoint

/-- The function `GetRemediationByOrg`. -/
def GetRemediationByOrg {C : Type} (json : JSON C) (iq : IQ) (component : C)
    (stage organizationName : String) : Result C :=
  match iq.GetOrganizationByName organizationName with
  | .error err =>
    { posts := [], value := { VersionChanges := [] },
      err := fmt.Errorf "could not get organization: %v" [.err (some err)] }
  | .ok org =>
    let endpoint := fmt.Sprintf restRemediationByOrg [.str org.ID, .str stage]
    getRemediation json iq component endpoint

end nexusiq

/-! ## The statements as the specification words them -/

namespace nexusrm

/-- The name of an enumerated format as the creation primitives spell it. -/
def repositoryFormat.name : repositoryFormat → String
  | .Maven => "Maven"
  | .Npm => "Npm"
  | .Nuget => "Nuget"
  | .Apt => "Apt"
  | .Docker => "Docker"
  | .Golang => "Golang"
  | .Raw => "Raw"
  | .Rubygems => "Rubygems"
  | .Bower => "Bower"
  | .Pypi => "Pypi"
  | .Yum => "Yum"
  | .GitLfs => "GitLfs"
  | .other _ => ""

/-- One quoted positional argument. -/
def quoted (a : String) : String :=
  "'" ++ a ++ "'"

/-- A positional argument list: the quoted arguments, separated by a comma and
a space. -/
def argList : List String → String
  | [] => ""
  | [a] => quoted a
  | a :: b :: rest => quoted a ++ ", " ++ argList (b :: rest)

/-- An optional field as arguments: none when the field is empty, else one. -/
def optionalArg (x : String) : List String :=
  if x = "" then [] else [x]

/-- The positional call of the creation primitive `create<Format><Kind>`. -/
def callStatement (format kind : String) (args : List String) : String :=
  "repository.create" ++ format ++ kind ++ "(" ++ argList args ++ ")"

/-- The members argument of a group statement: the member names in order,
separated by single spaces, inside square brackets. -/
def membersArg (members : List String) : String :=
  "[" ++ " ".intercalate members ++ "]"

/-- The members list as arguments: none when the list is empty, else the one
members argument. -/
def optionalMembers (members : List String) : List String :=
  if members = [] then [] else [membersArg members]

/-- A remote whose script execution always succeeds with an empty result. -/
def rmSucceeding : RM :=
  { ScriptRunOnce := fun _ => .ok [] }

end nexusrm

/-! ## Remediation equality as the specification words it, and sample inputs -/

namespace nexusiq

/-- Structural equality of two version changes: the same type tag and
components that `Component.Equals` accepts. -/
def sameChange {C : Type} (ceq : C → C → Bool) (x y : remediationVersionChange C) : Prop :=
  x.Type_ = y.Type_ ∧ ceq x.Data.Component y.Data.Component = true

/-- Equality of two lists of version changes: the same length and structurally
equal elements at every index. -/
def sameChanges {C : Type} (ceq : C → C → Bool) (xs ys : List (remediationVersionChange C)) :
    Prop :=
  xs.length = ys.length ∧
    ∀ (i : Nat) (x y : remediationVersionChange C),
      xs[i]? = some x → ys[i]? = some y → sameChange ceq x y

/-- A sample `Component.Equals`: components are numbers, equal when the same. -/
def natEquals (a b : Nat) : Bool :=
  decide (a = b)

/-- A sample heap of three `Remediation` objects: two with the same single
version change at different addresses, and one with no version change. -/
def sampleHeap : Heap Nat :=
  [{ VersionChanges := [{ Type_ := remediationTypeNoViolations, Data := { Component := 1 } }] },
   { VersionChanges := [{ Type_ := remediationTypeNoViolations, Data := { Component := 1 } }] },
   { VersionChanges := [] }]

/-- A sample client whose lookups fail and whose posts echo the request. -/
def iqUnresolvable : IQ :=
  { Post := fun _ body => .ok body,
    GetApplicationByPublicID := fun _ => .error "no such application",
    GetOrganizationByName := fun _ => .error "no such organization" }

/-- A sample client whose lookups resolve to fixed identifiers. -/
def iqResolving : IQ :=
  { Post := fun _ body => .ok body,
    GetApplicationByPublicID := fun _ => .ok { ID := "4bb67dcfc86344e3a483832f8c496419" },
    GetOrganizationByName := fun _ => .ok { ID := "ROOT_ORGANIZATION_ID" } }

/-- A sample codec on numeric components: the request is the one byte of the
number, every response decodes to the empty remediation. -/
def jsonSample : JSON Nat :=
  { Marshal := fun n => .ok [n.toUInt8],
    Unmarshal := fun _ => .ok { Remediation := { VersionChanges := [] } } }

end nexusiq

/-! ## The kind and format dispatch as the specification words it -/

namespace nexusrm

/-- The three repository kinds, one per exported function. -/
inductive Kind where
  | Hosted
  | Proxy
  | Group
deriving DecidableEq, Repr

/-- The name of a kind as the creation primitives spell it. -/
def Kind.name : Kind → String
  | .Hosted => "Hosted"
  | .Proxy => "Proxy"
  | .Group => "Group"

/-- The two-dimensional lookup: the template that the function of the given
kind selects for the given format. -/
def templateOf : Kind → repositoryFormat → String
  | .Hosted, format => hostedTemplate format
  | .Proxy, format => proxyTemplate format
  | .Group, format => groupTemplate format

/-- The argument part shared by the twelve templates of a kind. -/
def templateArgs : Kind → String
  | .Hosted =>
    "('\x7b\x7b.Name\x7d\x7d'\x7b\x7bwith .BlobStore\x7d\x7d, '\x7b\x7b.\x7d\x7d'\x7b\x7bend\x7d\x7d)"
  | .Proxy =>
    "('\x7b\x7b.Name\x7d\x7d'\x7b\x7bwith .RemoteURL\x7d\x7d, '\x7b\x7b.\x7d\x7d'\x7b\x7bend\x7d\x7d\x7b\x7bwith .BlobStore\x7d\x7d, '\x7b\x7b.\x7d\x7d'\x7b\x7bend\x7d\x7d)"
  | .Group =>
    "('\x7b\x7b.Name\x7d\x7d'\x7b\x7bwith .Members\x7d\x7d, '\x7b\x7b.\x7d\x7d'\x7b\x7bend\x7d\x7d\x7b\x7bwith .BlobStore\x7d\x7d, '\x7b\x7b.\x7d\x7d'\x7b\x7bend\x7d\x7d)"

/-- The twelve enumerated formats. -/
def enumeratedFormats : List repositoryFormat :=
  [.Maven, .Npm, .Nuget, .Apt, .Docker, .Golang, .Raw, .Rubygems, .Bower, .Pypi, .Yum, .GitLfs]

/-- The thirty-six statement templates, kind by kind. -/
def allTemplates : List String :=
  enumeratedFormats.map hostedTemplate ++ enumeratedFormats.map proxyTemplate ++
    enumeratedFormats.map groupTemplate

/-- A config of any of the three kinds. -/
inductive Config where
  | hosted (c : repositoryHosted)
  | proxy (c : repositoryProxy)
  | group (c : repositoryGroup)
deriving DecidableEq, Repr

/-- The kind a config belongs to. -/
def Config.kind : Config → Kind
  | .hosted _ => Kind.Hosted
  | .proxy _ => Kind.Proxy
  | .group _ => Kind.Group

/-- The exported function of the config's kind, applied to it. -/
def Create (rm : RM) (format : repositoryFormat) : Config → Outcome
  | .hosted c => CreateHostedRepository rm format c
  | .proxy c => CreateProxyRepository rm format c
  | .group c => CreateGroupRepository rm format c

end nexusrm

/-! ## `Remediation.Equals` when `Component.Equals` may panic -/

namespace nexusiq.withPanics

/-- The run-time panics a call of `Remediation.Equals` can end in, by cause:
dereferencing a nil `*Remediation`, indexing `b.VersionChanges` out of range,
and a panic raised inside `Component.Equals`. -/
inductive Panic where
  | nilDereference
  | indexOutOfRange
  | inComponentEquals
deriving DecidableEq, Repr

/-- The method `remediationData.Equals`, with `Component.Equals` taken as a
function `cpeq` that may panic (`none`) instead of returning; a panic of the
call at line 27 ends the method. `same` is the outcome of the pointer test
`a == b`. -/
def remediationData.Equals {C : Type} (cpeq : C → C → Option Bool) (same : Bool)
    (a b : remediationData C) : Except Panic Bool :=
  if same then .ok true
  else
    match cpeq a.Component b.Component with
    | none => .error Panic.inComponentEquals
    | some r => if !r then .ok false else .ok true

/-- The method `remediationVersionChange.Equals` over a `Component.Equals`
that may panic. `same` is the outcome of the pointer test `a == b`; the nested
call is handed the same flag, as `&a.Data` and `&b.Data` coincide exactly when
`a` and `b` do. -/
def remediationVersionChange.Equals {C : Type} (cpeq : C → C → Option Bool) (same : Bool)
    (a b : remediationVersionChange C) : Except Panic Bool :=
  if same then .ok true
  else if a.Type_ ≠ b.Type_ then .ok false
  else
    match remediationData.Equals cpeq same a.Data b.Data with
    | .error p => .error p
    | .ok r => if !r then .ok false else .ok true

/-- The `for i, v := range a.VersionChanges` loop of `Remediation.Equals` over
a `Component.Equals` that may panic, from index `i` on: `&b.VersionChanges[i]`
is evaluated first and panics when `i` is out of range, then the nested call
runs with a false pointer test (its receiver is the loop variable `v`). -/
def Remediation.Equals.loop {C : Type} (cpeq : C → C → Option Bool)
    (bs : List (remediationVersionChange C)) :
    Nat → List (remediationVersionChange C) → Except Panic Bool
  | _, [] => .ok true
  | i, v :: vs =>
    match bs[i]? with
    | none => .error Panic.indexOutOfRange
    | some bi =>
      match remediationVersionChange.Equals cpeq false v bi with
      | .error p => .error p
      | .ok r => if !r then .ok false else Remediation.Equals.loop cpeq bs (i + 1) vs

/-- The method `Remediation.Equals` on two pointers into the heap `h`, over a
`Component.Equals` that may panic; a panic is reported with its cause. -/
def Remediation.Equals {C : Type} (cpeq : C → C → Option Bool) (h : Heap C) (a b : Ptr) :
    Except Panic Bool :=
  if a = b then .ok true
  else
    match deref h a with
    | none => .error Panic.nilDereference
    | some ra =>
      match deref h b with
      | none => .error Panic.nilDereference
      | some rb =>
        if ra.VersionChanges.length ≠ rb.VersionChanges.length then .ok false
        else Remediation.Equals.loop cpeq rb.VersionChanges 0 ra.VersionChanges

/-- A sample `Component.Equals` that can panic. A component is its identifier,
held through a pointer that may be nil (`none`); comparing a component that has
an identifier with one that has none dereferences the nil pointer. -/
def nullableEquals : Option Nat → Option Nat → Option Bool
  | some x, some y => some (decide (x = y))
  | none, none => some true
  | some _, none => none
  | none, some _ => none

/-- A sample heap for `nullableEquals`: two objects with one version change
each, the first with the identifier 1, the second without an identifier, and a
third object equal to the first. -/
def nullableHeap : Heap (Option Nat) :=
  [{ VersionChanges :=
      [{ Type_ := remediationTypeNoViolations, Data := { Component := some 1 } }] },
   { VersionChanges :=
      [{ Type_ := remediationTypeNoViolations, Data := { Component := none } }] },
   { VersionChanges :=
      [{ Type_ := remediationTypeNoViolations, Data := { Component := some 1 } }] }]

end nexusiq.withPanics

/-! ## Shared lemmas: parsing and rendering the statement templates -/

namespace nexusrm

open template

/-- The tree every hosted template parses to. -/
theorem hostedTemplate_parse (format : repositoryFormat) (h : format.isEnumerated = true) :
    (New "hosted").Parse (hostedTemplate format) = .ok
      { name := "hosted",
        Tree := some [Node.text ("repository.create" ++ format.name ++ "Hosted" ++ "(" ++ "'"),
          Node.action (Pipe.field "Name"), Node.text "'",
          Node.with_ (Pipe.field "BlobStore")
            [Node.text (", " ++ "'"), Node.action Pipe.dot, Node.text "'"],
          Node.text ")"] } := by
  cases format <;> first | rfl | simp [repositoryFormat.isEnumerated] at h

/-- The tree every proxy template parses to. -/
theorem proxyTemplate_parse (format : repositoryFormat) (h : format.isEnumerated = true) :
    (New "proxy").Parse (proxyTemplate format) = .ok
      { name := "proxy",
        Tree := some [Node.text ("repository.create" ++ format.name ++ "Proxy" ++ "(" ++ "'"),
          Node.action (Pipe.field "Name"), Node.text "'",
          Node.with_ (Pipe.field "RemoteURL")
            [Node.text (", " ++ "'"), Node.action Pipe.dot, Node.text "'"],
          Node.with_ (Pipe.field "BlobStore")
            [Node.text (", " ++ "'"), Node.action Pipe.dot, Node.text "'"],
          Node.text ")"] } := by
  cases format <;> first | rfl | simp [repositoryFormat.isEnumerated] at h

/-- The tree every group template parses to. -/
theorem groupTemplate_parse (format : repositoryFormat) (h : format.isEnumerated = true) :
    (New "group").Parse (groupTemplate format) = .ok
      { name := "group",
        Tree := some [Node.text ("repository.create" ++ format.name ++ "Group" ++ "(" ++ "'"),
          Node.action (Pipe.field "Name"), Node.text "'",
          Node.with_ (Pipe.field "Members")
            [Node.text (", " ++ "'"), Node.action Pipe.dot, Node.text "'"],
          Node.with_ (Pipe.field "BlobStore")
            [Node.text (", " ++ "'"), Node.action Pipe.dot, Node.text "'"],
          Node.text ")"] } := by
  cases format <;> first | rfl | simp [repositoryFormat.isEnumerated] at h

/-- Executing the hosted tree writes the positional call. -/
theorem hosted_execute (pre : String) (config : repositoryHosted) :
    Template.Execute
      { name := "hosted",
        Tree := some [Node.text (pre ++ "(" ++ "'"),
          Node.action (Pipe.field "Name"), Node.text "'",
          Node.with_ (Pipe.field "BlobStore")
            [Node.text (", " ++ "'"), Node.action Pipe.dot, Node.text "'"],
          Node.text ")"] } config.toValue =
      .ok (pre ++ "(" ++ argList (config.Name :: optionalArg config.BlobStore) ++ ")") := by
  by_cases hb : config.BlobStore = "" <;>
    simp [Template.Execute, walkList, walk, evalPipe, repositoryHosted.toValue, List.lookup,
      printValue, printScalar, truth, hb, optionalArg, argList, quoted,
      String.append_assoc, -String.reduceAppend]

/-- Executing the proxy tree writes the positional call. -/
theorem proxy_execute (pre : String) (config : repositoryProxy) :
    Template.Execute
      { name := "proxy",
        Tree := some [Node.text (pre ++ "(" ++ "'"),
          Node.action (Pipe.field "Name"), Node.text "'",
          Node.with_ (Pipe.field "RemoteURL")
            [Node.text (", " ++ "'"), Node.action Pipe.dot, Node.text "'"],
          Node.with_ (Pipe.field "BlobStore")
            [Node.text (", " ++ "'"), Node.action Pipe.dot, Node.text "'"],
          Node.text ")"] } config.toValue =
      .ok (pre ++ "(" ++
        argList (config.Name :: (optionalArg config.RemoteURL ++ optionalArg config.BlobStore)) ++
        ")") := by
  by_cases hu : config.RemoteURL = "" <;> by_cases hb : config.BlobStore = "" <;>
    simp [Template.Execute, walkList, walk, evalPipe, repositoryProxy.toValue, List.lookup,
      printValue, printScalar, truth, hu, hb, optionalArg, argList, quoted,
      String.append_assoc, -String.reduceAppend]

/-- Executing the group tree writes the positional call. -/
theorem group_execute (pre : String) (config : repositoryGroup) :
    Template.Execute
      { name := "group",
        Tree := some [Node.text (pre ++ "(" ++ "'"),
          Node.action (Pipe.field "Name"), Node.text "'",
          Node.with_ (Pipe.field "Members")
            [Node.text (", " ++ "'"), Node.action Pipe.dot, Node.text "'"],
          Node.with_ (Pipe.field "BlobStore")
            [Node.text (", " ++ "'"), Node.action Pipe.dot, Node.text "'"],
          Node.text ")"] } config.toValue =
      .ok (pre ++ "(" ++
        argList (config.Name :: (optionalMembers config.Members ++ optionalArg config.BlobStore)) ++
        ")") := by
  by_cases hm : config.Members = [] <;> by_cases hb : config.BlobStore = "" <;>
    simp [Template.Execute, walkList, walk, evalPipe, repositoryGroup.toValue, List.lookup,
      printValue, printScalar, truth, hm, hb, optionalArg, optionalMembers, membersArg, argList,
      quoted, String.append_assoc, -String.reduceAppend]

/-- An optional field never contributes an empty argument. -/
theorem empty_not_mem_optionalArg (x : String) : "" ∉ optionalArg x := by
  unfold optionalArg
  split
  · simp
  · rename_i hx
    intro hmem
    exact hx (List.mem_singleton.mp hmem).symm

/-- What a hosted call does for an enumerated format: one script, the
positional call, and the wrapped outcome of its execution. -/
theorem CreateHostedRepository_enumerated (rm : RM) (format : repositoryFormat)
    (config : repositoryHosted) (h : format.isEnumerated = true) :
    CreateHostedRepository rm format config =
      { submitted := [newAnonGroovyScript
          (callStatement format.name "Hosted" (config.Name :: optionalArg config.BlobStore))],
        err := fmt.Errorf "could not create hosted repository: %v"
          [.err (errOf (rm.ScriptRunOnce (newAnonGroovyScript
            (callStatement format.name "Hosted"
              (config.Name :: optionalArg config.BlobStore)))))] } := by
  simp only [CreateHostedRepository, hostedTemplate_parse format h, hosted_execute, callStatement]

/-- What a proxy call does for an enumerated format. -/
theorem CreateProxyRepository_enumerated (rm : RM) (format : repositoryFormat)
    (config : repositoryProxy) (h : format.isEnumerated = true) :
    CreateProxyRepository rm format config =
      { submitted := [newAnonGroovyScript
          (callStatement format.name "Proxy"
            (config.Name :: (optionalArg config.RemoteURL ++ optionalArg config.BlobStore)))],
        err := fmt.Errorf "could not create proxy repository: %v"
          [.err (errOf (rm.ScriptRunOnce (newAnonGroovyScript
            (callStatement format.name "Proxy"
              (config.Name ::
                (optionalArg config.RemoteURL ++ optionalArg config.BlobStore))))))] } := by
  simp only [CreateProxyRepository, proxyTemplate_parse format h, proxy_execute, callStatement]

/-- What a group call does for an enumerated format. -/
theorem CreateGroupRepository_enumerated (rm : RM) (format : repositoryFormat)
    (config : repositoryGroup) (h : format.isEnumerated = true) :
    CreateGroupRepository rm format config =
      { submitted := [newAnonGroovyScript
          (callStatement format.name "Group"
            (config.Name :: (optionalMembers config.Members ++ optionalArg config.BlobStore)))],
        err := fmt.Errorf "could not create group repository: %v"
          [.err (errOf (rm.ScriptRunOnce (newAnonGroovyScript
            (callStatement format.name "Group"
              (config.Name ::
                (optionalMembers config.Members ++ optionalArg config.BlobStore))))))] } := by
  simp only [CreateGroupRepository, groupTemplate_parse format h, group_execute, callStatement]

/-- What the three calls do for a format outside the enumeration: the empty
template parses and executes, and the empty statement is submitted. -/
theorem Create_other (rm : RM) (code : Nat) (hosted : repositoryHosted)
    (proxy : repositoryProxy) (group : repositoryGroup) :
    CreateHostedRepository rm (.other code) hosted =
      { submitted := [newAnonGroovyScript ""],
        err := fmt.Errorf "could not create hosted repository: %v"
          [.err (errOf (rm.ScriptRunOnce (newAnonGroovyScript "")))] } ∧
    CreateProxyRepository rm (.other code) proxy =
      { submitted := [newAnonGroovyScript ""],
        err := fmt.Errorf "could not create proxy repository: %v"
          [.err (errOf (rm.ScriptRunOnce (newAnonGroovyScript "")))] } ∧
    CreateGroupRepository rm (.other code) group =
      { submitted := [newAnonGroovyScript ""],
        err := fmt.Errorf "could not create group repository: %v"
          [.err (errOf (rm.ScriptRunOnce (newAnonGroovyScript "")))] } :=
  ⟨rfl, rfl, rfl⟩

/-- The error returned by the three calls is never nil, whatever the format,
the config and the outcome of the remote execution. -/
theorem Create_err_ne_none (rm : RM) (format : repositoryFormat) (hosted : repositoryHosted)
    (proxy : repositoryProxy) (group : repositoryGroup) :
    (CreateHostedRepository rm format hosted).err ≠ none ∧
    (CreateProxyRepository rm format proxy).err ≠ none ∧
    (CreateGroupRepository rm format group).err ≠ none := by
  refine ⟨?_, ?_, ?_⟩
  · unfold CreateHostedRepository
    simp only [fmt.Errorf]
    split
    · simp
    · split <;> simp
  · unfold CreateProxyRepository
    simp only [fmt.Errorf]
    split
    · simp
    · split <;> simp
  · unfold CreateGroupRepository
    simp only [fmt.Errorf]
    split
    · simp
    · split <;> simp

end nexusrm

/-! ## Claims on the repository script builder -/

namespace nexusrm

/-- C1 (the code departs from the claim): with a remote whose script execution
succeeds (nil error), `CreateHostedRepository`, `CreateProxyRepository` and
`CreateGroupRepository` for the enumerated format Maven still return a non-nil
error, whose text ends in the formatted nil error. -/
theorem C1_success_returns_error :
    errOf (rmSucceeding.ScriptRunOnce
      (newAnonGroovyScript "repository.createMavenHosted('releases')")) = none ∧
    (CreateHostedRepository rmSucceeding .Maven
      { Name := "releases", BlobStore := "", StrictContentTypeValidation := false }).err =
      some "could not create hosted repository: <nil>" ∧
    (CreateProxyRepository rmSucceeding .Maven
      { Name := "releases", RemoteURL := "", BlobStore := "",
        StrictContentTypeValidation := false }).err =
      some "could not create proxy repository: <nil>" ∧
    (CreateGroupRepository rmSucceeding .Maven
      { Name := "releases", BlobStore := "", Members := [] }).err =
      some "could not create group repository: <nil>" := by
  decide

/-- C2 (the code departs from the claim): for the format value `other 0`, outside
the twelve enumerated formats, each of the three functions submits exactly one
script, whose statement is empty, and the error it returns is the wrapped
outcome of that execution, not a template error. -/
theorem C2_unknown_format_submits_empty :
    CreateHostedRepository rmSucceeding (.other 0)
      { Name := "releases", BlobStore := "", StrictContentTypeValidation := false } =
      { submitted := [{ Content := "" }],
        err := some "could not create hosted repository: <nil>" } ∧
    CreateProxyRepository rmSucceeding (.other 0)
      { Name := "releases", RemoteURL := "", BlobStore := "",
        StrictContentTypeValidation := false } =
      { submitted := [{ Content := "" }],
        err := some "could not create proxy repository: <nil>" } ∧
    CreateGroupRepository rmSucceeding (.other 0)
      { Name := "releases", BlobStore := "", Members := [] } =
      { submitted := [{ Content := "" }],
        err := some "could not create group repository: <nil>" } := by
  decide

/-- C3: for every enumerated format and every hosted config, the one statement
`CreateHostedRepository` submits is `repository.create<Format>Hosted('<name>')`
when the blob store is empty and
`repository.create<Format>Hosted('<name>', '<blobStore>')` when it is not. -/
theorem C3_hosted_statement (rm : RM) (format : repositoryFormat) (config : repositoryHosted)
    (h : format.isEnumerated = true) :
    (config.BlobStore = "" →
      (CreateHostedRepository rm format config).submitted =
        [newAnonGroovyScript
          ("repository.create" ++ format.name ++ "Hosted('" ++ config.Name ++ "')")]) ∧
    (config.BlobStore ≠ "" →
      (CreateHostedRepository rm format config).submitted =
        [newAnonGroovyScript
          ("repository.create" ++ format.name ++ "Hosted('" ++ config.Name ++ "', '" ++
            config.BlobStore ++ "')")]) := by
  have e1 : "Hosted('" = "Hosted" ++ ("(" ++ "'") := by decide
  have e2 : "')" = "'" ++ ")" := by decide
  have e3 : "', '" = "'" ++ (", " ++ "'") := by decide
  rw [CreateHostedRepository_enumerated rm format config h]
  constructor
  · intro hb
    simp only [callStatement, optionalArg, hb, if_true, argList, quoted, e1, e2,
      String.append_assoc]
  · intro hb
    simp only [callStatement, optionalArg, hb, if_false, argList, quoted, e1, e2, e3,
      String.append_assoc]

/-- The two renderings the specification names: Maven with an empty blob store,
Npm with the blob store `default`. -/
theorem C3_hosted_statement_witness :
    (repositoryFormat.Maven.isEnumerated = true ∧
      (CreateHostedRepository rmSucceeding .Maven
        { Name := "releases", BlobStore := "", StrictContentTypeValidation := false }).submitted =
        [{ Content := "repository.createMavenHosted('releases')" }]) ∧
    (repositoryFormat.Npm.isEnumerated = true ∧
      (CreateHostedRepository rmSucceeding .Npm
        { Name := "releases", BlobStore := "default",
          StrictContentTypeValidation := false }).submitted =
        [{ Content := "repository.createNpmHosted('releases', 'default')" }]) :=
  ⟨⟨rfl, (C3_hosted_statement rmSucceeding .Maven
      { Name := "releases", BlobStore := "", StrictContentTypeValidation := false } rfl).1 rfl⟩,
   ⟨rfl, (C3_hosted_statement rmSucceeding .Npm
      { Name := "releases", BlobStore := "default", StrictContentTypeValidation := false }
      rfl).2 (by decide)⟩⟩

/-- C4: for every enumerated format and every proxy config, the one statement
`CreateProxyRepository` submits is the positional call of `create<Format>Proxy`
whose quoted arguments are the name, then the remote URL exactly when it is
non-empty, then the blob store exactly when it is non-empty; no argument that
comes from an optional field is the empty string. -/
theorem C4_proxy_statement (rm : RM) (format : repositoryFormat) (config : repositoryProxy)
    (h : format.isEnumerated = true) :
    (CreateProxyRepository rm format config).submitted =
      [newAnonGroovyScript
        (callStatement format.name "Proxy"
          (config.Name :: (optionalArg config.RemoteURL ++ optionalArg config.BlobStore)))] ∧
    optionalArg config.RemoteURL = (if config.RemoteURL = "" then [] else [config.RemoteURL]) ∧
    optionalArg config.BlobStore = (if config.BlobStore = "" then [] else [config.BlobStore]) ∧
    "" ∉ optionalArg config.RemoteURL ++ optionalArg config.BlobStore := by
  rw [CreateProxyRepository_enumerated rm format config h]
  refine ⟨rfl, rfl, rfl, ?_⟩
  intro hmem
  rcases List.mem_append.mp hmem with hx | hx
  · exact empty_not_mem_optionalArg _ hx
  · exact empty_not_mem_optionalArg _ hx

/-- The four shapes of a proxy statement, at Npm: no optional field, the remote
URL alone, the blob store alone, and both in the order remote URL, blob store. -/
theorem C4_proxy_statement_witness :
    repositoryFormat.Npm.isEnumerated = true ∧
    (CreateProxyRepository rmSucceeding .Npm
      { Name := "npmjs", RemoteURL := "", BlobStore := "",
        StrictContentTypeValidation := false }).submitted =
      [{ Content := "repository.createNpmProxy('npmjs')" }] ∧
    (CreateProxyRepository rmSucceeding .Npm
      { Name := "npmjs", RemoteURL := "https://registry.npmjs.org", BlobStore := "",
        StrictContentTypeValidation := false }).submitted =
      [{ Content := "repository.createNpmProxy('npmjs', 'https://registry.npmjs.org')" }] ∧
    (CreateProxyRepository rmSucceeding .Npm
      { Name := "npmjs", RemoteURL := "", BlobStore := "default",
        StrictContentTypeValidation := false }).submitted =
      [{ Content := "repository.createNpmProxy('npmjs', 'default')" }] ∧
    (CreateProxyRepository rmSucceeding .Npm
      { Name := "npmjs", RemoteURL := "https://registry.npmjs.org", BlobStore := "default",
        StrictContentTypeValidation := false }).submitted =
      [{ Content :=
        "repository.createNpmProxy('npmjs', 'https://registry.npmjs.org', 'default')" }] :=
  ⟨rfl,
   (C4_proxy_statement rmSucceeding .Npm
      { Name := "npmjs", RemoteURL := "", BlobStore := "",
        StrictContentTypeValidation := false } rfl).1,
   (C4_proxy_statement rmSucceeding .Npm
      { Name := "npmjs", RemoteURL := "https://registry.npmjs.org", BlobStore := "",
        StrictContentTypeValidation := false } rfl).1,
   (C4_proxy_statement rmSucceeding .Npm
      { Name := "npmjs", RemoteURL := "", BlobStore := "default",
        StrictContentTypeValidation := false } rfl).1,
   (C4_proxy_statement rmSucceeding .Npm
      { Name := "npmjs", RemoteURL := "https://registry.npmjs.org", BlobStore := "default",
        StrictContentTypeValidation := false } rfl).1⟩

/-- C5: for every enumerated format and every group config with a non-empty
members list, the one statement `CreateGroupRepository` submits is the
positional call of `create<Format>Group` whose quoted arguments are the name,
then the members argument (the member names in the order of the list, separated
by single spaces, inside square brackets), and then the blob store exactly when
it is non-empty: two arguments when the blob store is empty, three otherwise. -/
theorem C5_group_statement (rm : RM) (format : repositoryFormat) (config : repositoryGroup)
    (h : format.isEnumerated = true) (hm : config.Members ≠ []) :
    (config.BlobStore = "" →
      (CreateGroupRepository rm format config).submitted =
        [newAnonGroovyScript
          (callStatement format.name "Group"
            [config.Name, "[" ++ " ".intercalate config.Members ++ "]"])]) ∧
    (config.BlobStore ≠ "" →
      (CreateGroupRepository rm format config).submitted =
        [newAnonGroovyScript
          (callStatement format.name "Group"
            [config.Name, "[" ++ " ".intercalate config.Members ++ "]", config.BlobStore])]) := by
  rw [CreateGroupRepository_enumerated rm format config h]
  constructor
  · intro hb
    simp [optionalMembers, optionalArg, membersArg, hm, hb]
  · intro hb
    simp [optionalMembers, optionalArg, membersArg, hm, hb]

/-- The rendering the specification names: Pypi, members `a` then `b`, no blob
store. -/
theorem C5_group_statement_witness :
    repositoryFormat.Pypi.isEnumerated = true ∧ ["a", "b"] ≠ [] ∧
    (CreateGroupRepository rmSucceeding .Pypi
      { Name := "all", BlobStore := "", Members := ["a", "b"] }).submitted =
      [{ Content := "repository.createPypiGroup('all', '[a b]')" }] :=
  ⟨rfl, by decide,
   (C5_group_statement rmSucceeding .Pypi
      { Name := "all", BlobStore := "", Members := ["a", "b"] } rfl (by decide)).1 rfl⟩

end nexusrm

/-! ## Shared lemmas: the equality loop and the formatted strings -/

namespace nexusiq

/-- With distinct addresses, two version changes compare equal exactly when
their type tags agree and their components are accepted. -/
theorem versionChange_Equals_false {C : Type} (ceq : C → C → Bool)
    (x y : remediationVersionChange C) :
    remediationVersionChange.Equals ceq false x y = true ↔ sameChange ceq x y := by
  unfold remediationVersionChange.Equals remediationData.Equals sameChange
  by_cases ht : x.Type_ = y.Type_ <;> cases hc : ceq x.Data.Component y.Data.Component <;>
    simp [ht, hc]

/-- The loop visits every remaining element against the element of `bs` at the
same index, and never indexes out of range when the lengths match. -/
theorem loop_spec {C : Type} (ceq : C → C → Bool) (bs : List (remediationVersionChange C)) :
    ∀ (vs : List (remediationVersionChange C)) (i : Nat), vs.length + i = bs.length →
      ∃ r : Bool, Remediation.Equals.loop ceq bs i vs = some r ∧
        (r = true ↔ ∀ (k : Nat) (x y : remediationVersionChange C),
          vs[k]? = some x → bs[i + k]? = some y → sameChange ceq x y) := by
  intro vs
  induction vs with
  | nil =>
    intro i _
    exact ⟨true, rfl, by simp⟩
  | cons v vs ih =>
    intro i hlen
    have hi : i < bs.length := by simp at hlen; omega
    have hget : bs[i]? = some bs[i] := List.getElem?_eq_getElem hi
    unfold Remediation.Equals.loop
    rw [hget]
    simp only []
    by_cases hv : remediationVersionChange.Equals ceq false v bs[i] = true
    · obtain ⟨r, hr, hiff⟩ := ih (i + 1) (by simp at hlen; omega)
      refine ⟨r, by simp [hv, hr], ?_⟩
      rw [hiff]
      constructor
      · intro hall k x y hx hy
        cases k with
        | zero =>
          simp at hx hy
          rw [hget] at hy
          cases hx
          cases hy
          exact (versionChange_Equals_false ceq _ _).mp hv
        | succ k =>
          simp at hx
          exact hall k x y hx (by rw [← hy]; congr 1; omega)
      · intro hall k x y hx hy
        exact hall (k + 1) x y (by simpa using hx) (by rw [← hy]; congr 1; omega)
    · refine ⟨false, by simp [hv], ?_⟩
      simp only [Bool.false_eq_true, false_iff]
      intro hall
      exact hv ((versionChange_Equals_false ceq _ _).mpr (hall 0 v bs[i] (by simp) (by simp)))

/-- On two valid, distinct pointers `Remediation.Equals` returns a boolean (it
does not panic), and that boolean is true exactly when the two lists of version
changes are equal element by element. -/
theorem Equals_distinct {C : Type} (ceq : C → C → Bool) (h : Heap C) (a b : Ptr)
    (ra rb : Remediation C) (hab : a ≠ b) (ha : deref h a = some ra) (hb : deref h b = some rb) :
    ∃ r : Bool, Remediation.Equals ceq h a b = some r ∧
      (r = true ↔ sameChanges ceq ra.VersionChanges rb.VersionChanges) := by
  unfold Remediation.Equals
  rw [if_neg hab, ha, hb]
  simp only []
  by_cases hlen : ra.VersionChanges.length = rb.VersionChanges.length
  · obtain ⟨r, hr, hiff⟩ := loop_spec ceq rb.VersionChanges ra.VersionChanges 0 (by simpa using hlen)
    refine ⟨r, by simp [hlen, hr], ?_⟩
    rw [hiff]
    unfold sameChanges
    simp [hlen]
  · refine ⟨false, by simp [hlen], ?_⟩
    unfold sameChanges
    simp [hlen]

/-- Structural equality of version changes is symmetric when `Component.Equals` is. -/
theorem sameChanges_symm {C : Type} (ceq : C → C → Bool)
    (hsymm : ∀ c d : C, ceq c d = ceq d c) (xs ys : List (remediationVersionChange C)) :
    sameChanges ceq xs ys → sameChanges ceq ys xs := by
  intro hxy
  refine ⟨hxy.1.symm, ?_⟩
  intro i y x hy hx
  have hs := hxy.2 i x y hx hy
  exact ⟨hs.1.symm, by rw [hsymm]; exact hs.2⟩

/-- Structural equality of version changes is reflexive when `Component.Equals` is. -/
theorem sameChanges_refl {C : Type} (ceq : C → C → Bool)
    (hrefl : ∀ c : C, ceq c c = true) (xs : List (remediationVersionChange C)) :
    sameChanges ceq xs xs := by
  refine ⟨rfl, ?_⟩
  intro i x y hx hy
  rw [hx] at hy
  cases hy
  exact ⟨rfl, hrefl _⟩

/-- The text of an error built with a literal prefix and the verb `%v` on a
non-nil error: the application lookup. -/
theorem Errorf_application (e : String) :
    fmt.Errorf "could not get application: %v" [.err (some e)] =
      some ("could not get application: " ++ e) := by
  have hscan : fmt.scan [] "could not get application: %v".data =
      [.lit "could not get application: ", .verb 'v'] := by decide
  simp [fmt.Errorf, fmt.Sprintf, hscan, fmt.render, fmt.formatArg]

/-- The text of an error built with a literal prefix and the verb `%v` on a
non-nil error: the organization lookup. -/
theorem Errorf_organization (e : String) :
    fmt.Errorf "could not get organization: %v" [.err (some e)] =
      some ("could not get organization: " ++ e) := by
  have hscan : fmt.scan [] "could not get organization: %v".data =
      [.lit "could not get organization: ", .verb 'v'] := by decide
  simp [fmt.Errorf, fmt.Sprintf, hscan, fmt.render, fmt.formatArg]

/-- The application endpoint is the path, the identifier, the query key and
the stage, concatenated. -/
theorem Sprintf_restRemediationByApp (id stage : String) :
    fmt.Sprintf restRemediationByApp [.str id, .str stage] =
      "api/v2/components/remediation/application/" ++ id ++ "?stageId=" ++ stage := by
  have hscan : fmt.scan [] restRemediationByApp.data =
      [.lit "api/v2/components/remediation/application/", .verb 's', .lit "?stageId=",
        .verb 's'] := by decide
  simp [fmt.Sprintf, hscan, fmt.render, fmt.formatArg, String.append_assoc]

/-- The organization endpoint is the path, the identifier, the query key and
the stage, concatenated. -/
theorem Sprintf_restRemediationByOrg (id stage : String) :
    fmt.Sprintf restRemediationByOrg [.str id, .str stage] =
      "api/v2/components/remediation/organization/" ++ id ++ "?stageId=" ++ stage := by
  have hscan : fmt.scan [] restRemediationByOrg.data =
      [.lit "api/v2/components/remediation/organization/", .verb 's', .lit "?stageId=",
        .verb 's'] := by decide
  simp [fmt.Sprintf, hscan, fmt.render, fmt.formatArg, String.append_assoc]

/-- Every post `getRemediation` makes goes to the endpoint it was given, and it
makes exactly one, with the serialized component, once serialization succeeds. -/
theorem getRemediation_posts {C : Type} (json : JSON C) (iq : IQ) (component : C)
    (endpoint : String) :
    (∀ p ∈ (getRemediation json iq component endpoint).posts, p.1 = endpoint) ∧
    (∀ request, json.Marshal component = .ok request →
      (getRemediation json iq component endpoint).posts = [(endpoint, request)]) := by
  unfold getRemediation
  constructor
  · intro p hp
    split at hp
    · simp at hp
    · split at hp
      · simp at hp; rw [hp]
      · split at hp <;> (simp at hp; rw [hp])
  · intro request hreq
    rw [hreq]
    simp only []
    split
    · rfl
    · split <;> rfl

end nexusiq

/-! ## Claims on the remediation client -/

namespace nexusiq

/-- C6: assuming `Component.Equals` is reflexive and symmetric,
`Remediation.Equals` is reflexive (through the same-address short-circuit, for
every pointer), symmetric (for every two pointers, the two orders give the same
result), and insensitive to object identity (two objects at different addresses
with the same version changes compare equal). -/
theorem C6_equals_refl_symm_identity {C : Type} (ceq : C → C → Bool)
    (hrefl : ∀ c : C, ceq c c = true) (hsymm : ∀ c d : C, ceq c d = ceq d c) (h : Heap C) :
    (∀ a : Ptr, Remediation.Equals ceq h a a = some true) ∧
    (∀ a b : Ptr, Remediation.Equals ceq h a b = Remediation.Equals ceq h b a) ∧
    (∀ (a b : Ptr) (ra rb : Remediation C), a ≠ b → deref h a = some ra → deref h b = some rb →
      ra.VersionChanges = rb.VersionChanges → Remediation.Equals ceq h a b = some true) := by
  refine ⟨?_, ?_, ?_⟩
  · intro a
    simp [Remediation.Equals]
  · intro a b
    by_cases hab : a = b
    · rw [hab]
    · cases ha : deref h a with
      | none =>
        simp [Remediation.Equals, hab, Ne.symm hab, ha]
        cases deref h b <;> rfl
      | some ra =>
        cases hb : deref h b with
        | none => simp [Remediation.Equals, hab, Ne.symm hab, ha, hb]
        | some rb =>
          obtain ⟨r, hr, hiff⟩ := Equals_distinct ceq h a b ra rb hab ha hb
          obtain ⟨s, hs, hiff2⟩ := Equals_distinct ceq h b a rb ra (Ne.symm hab) hb ha
          rw [hr, hs]
          congr 1
          have hrs : r = true ↔ s = true := by
            rw [hiff, hiff2]
            exact ⟨sameChanges_symm ceq hsymm _ _, sameChanges_symm ceq hsymm _ _⟩
          cases r <;> cases s <;> simp_all
  · intro a b ra rb hab ha hb heq
    obtain ⟨r, hr, hiff⟩ := Equals_distinct ceq h a b ra rb hab ha hb
    have hr2 : r = true := by
      rw [hiff, heq]
      exact sameChanges_refl ceq hrefl _
    rw [hr, hr2]

/-- On the sample heap with numeric components: an object equals itself, the
two orders agree, and the objects at addresses 0 and 1, which hold the same
version change, compare equal. -/
theorem C6_equals_refl_symm_identity_witness :
    ((∀ c : Nat, natEquals c c = true) ∧ (∀ c d : Nat, natEquals c d = natEquals d c)) ∧
    Remediation.Equals natEquals sampleHeap (some 0) (some 0) = some true ∧
    Remediation.Equals natEquals sampleHeap (some 0) (some 2) =
      Remediation.Equals natEquals sampleHeap (some 2) (some 0) ∧
    Remediation.Equals natEquals sampleHeap (some 0) (some 1) = some true :=
  have hrefl : ∀ c : Nat, natEquals c c = true := fun c => by simp [natEquals]
  have hsymm : ∀ c d : Nat, natEquals c d = natEquals d c := fun c d => by
    simp [natEquals, eq_comm]
  ⟨⟨hrefl, hsymm⟩,
   (C6_equals_refl_symm_identity natEquals hrefl hsymm sampleHeap).1 (some 0),
   (C6_equals_refl_symm_identity natEquals hrefl hsymm sampleHeap).2.1 (some 0) (some 2),
   (C6_equals_refl_symm_identity natEquals hrefl hsymm sampleHeap).2.2 (some 0) (some 1)
     _ _ (by decide) rfl rfl rfl⟩

/-- C7: two `Remediation` objects whose `VersionChanges` have different lengths
compare unequal: `a.Equals(b)` returns false. -/
theorem C7_equals_length_mismatch {C : Type} (ceq : C → C → Bool) (h : Heap C) (a b : Ptr)
    (ra rb : Remediation C) (ha : deref h a = some ra) (hb : deref h b = some rb)
    (hlen : ra.VersionChanges.length ≠ rb.VersionChanges.length) :
    Remediation.Equals ceq h a b = some false := by
  have hab : a ≠ b := by
    intro hab
    rw [hab, hb] at ha
    cases ha
    exact hlen rfl
  simp [Remediation.Equals, hab, ha, hb, hlen]

/-- On the sample heap, the object with one version change and the object with
none compare unequal. -/
theorem C7_equals_length_mismatch_witness :
    (deref sampleHeap (some 0) =
        some { VersionChanges :=
          [{ Type_ := remediationTypeNoViolations, Data := { Component := 1 } }] } ∧
      deref sampleHeap (some 2) = some { VersionChanges := [] } ∧
      [({ Type_ := remediationTypeNoViolations, Data := { Component := 1 } } :
        remediationVersionChange Nat)].length ≠ ([] : List (remediationVersionChange Nat)).length) ∧
    Remediation.Equals natEquals sampleHeap (some 0) (some 2) = some false :=
  ⟨⟨rfl, rfl, by decide⟩,
   C7_equals_length_mismatch natEquals sampleHeap (some 0) (some 2) _ _ rfl rfl (by decide)⟩

/-- C8: for two non-nil pointers at different addresses, `a.Equals(b)` returns
true exactly when the two `VersionChanges` have the same length and, at every
index, the same type tag and components accepted by `Component.Equals`; in every
other case it returns false. -/
theorem C8_equals_iff_pairwise {C : Type} (ceq : C → C → Bool) (h : Heap C) (a b : Ptr)
    (ra rb : Remediation C) (hab : a ≠ b) (ha : deref h a = some ra) (hb : deref h b = some rb) :
    (Remediation.Equals ceq h a b = some true ↔
      (ra.VersionChanges.length = rb.VersionChanges.length ∧
        ∀ (i : Nat) (x y : remediationVersionChange C),
          ra.VersionChanges[i]? = some x → rb.VersionChanges[i]? = some y →
            x.Type_ = y.Type_ ∧ ceq x.Data.Component y.Data.Component = true)) ∧
    (Remediation.Equals ceq h a b = some false ↔
      ¬ (ra.VersionChanges.length = rb.VersionChanges.length ∧
        ∀ (i : Nat) (x y : remediationVersionChange C),
          ra.VersionChanges[i]? = some x → rb.VersionChanges[i]? = some y →
            x.Type_ = y.Type_ ∧ ceq x.Data.Component y.Data.Component = true)) := by
  obtain ⟨r, hr, hiff⟩ := Equals_distinct ceq h a b ra rb hab ha hb
  have hiff2 : r = true ↔
      (ra.VersionChanges.length = rb.VersionChanges.length ∧
        ∀ (i : Nat) (x y : remediationVersionChange C),
          ra.VersionChanges[i]? = some x → rb.VersionChanges[i]? = some y →
            x.Type_ = y.Type_ ∧ ceq x.Data.Component y.Data.Component = true) := hiff
  rw [hr, ← hiff2]
  cases r <;> simp

/-- On the sample heap, the objects at addresses 0 and 1 compare equal, so they
have the same length and agree at every index. -/
theorem C8_equals_iff_pairwise_witness :
    ((some 0 : Ptr) ≠ some 1) ∧
    (Remediation.Equals natEquals sampleHeap (some 0) (some 1) = some true ↔
      ((1 : Nat) = 1 ∧
        ∀ (i : Nat) (x y : remediationVersionChange Nat),
          [({ Type_ := remediationTypeNoViolations, Data := { Component := 1 } } :
            remediationVersionChange Nat)][i]? = some x →
          [({ Type_ := remediationTypeNoViolations, Data := { Component := 1 } } :
            remediationVersionChange Nat)][i]? = some y →
            x.Type_ = y.Type_ ∧ natEquals x.Data.Component y.Data.Component = true)) :=
  ⟨by decide,
   (C8_equals_iff_pairwise natEquals sampleHeap (some 0) (some 1) _ _ (by decide) rfl rfl).1⟩

/-- C9: when the application lookup fails, `GetRemediationByApp` makes no post
and returns the empty `Remediation` with an error whose text is
`could not get application: ` followed by the lookup's error; likewise
`GetRemediationByOrg` when the organization lookup fails. -/
theorem C9_lookup_failure_no_post {C : Type} (json : JSON C) (iq : IQ) (component : C)
    (stage : String) :
    (∀ applicationID e, iq.GetApplicationByPublicID applicationID = .error e →
      GetRemediationByApp json iq component stage applicationID =
        { posts := [], value := { VersionChanges := [] },
          err := some ("could not get application: " ++ e) }) ∧
    (∀ organizationName e, iq.GetOrganizationByName organizationName = .error e →
      GetRemediationByOrg json iq component stage organizationName =
        { posts := [], value := { VersionChanges := [] },
          err := some ("could not get organization: " ++ e) }) := by
  constructor
  · intro applicationID e he
    simp only [GetRemediationByApp, he, Errorf_application]
  · intro organizationName e he
    simp only [GetRemediationByOrg, he, Errorf_organization]

/-- With a client whose lookups fail, both calls return the wrapped lookup
error and post nothing. -/
theorem C9_lookup_failure_no_post_witness :
    (iqUnresolvable.GetApplicationByPublicID "unknown-app" = .error "no such application" ∧
      GetRemediationByApp jsonSample iqUnresolvable 7 "build" "unknown-app" =
        { posts := [], value := { VersionChanges := [] },
          err := some "could not get application: no such application" }) ∧
    (iqUnresolvable.GetOrganizationByName "unknown-org" = .error "no such organization" ∧
      GetRemediationByOrg jsonSample iqUnresolvable 7 "build" "unknown-org" =
        { posts := [], value := { VersionChanges := [] },
          err := some "could not get organization: no such organization" }) :=
  ⟨⟨rfl, (C9_lookup_failure_no_post jsonSample iqUnresolvable 7 "build").1
      "unknown-app" "no such application" rfl⟩,
   ⟨rfl, (C9_lookup_failure_no_post jsonSample iqUnresolvable 7 "build").2
      "unknown-org" "no such organization" rfl⟩⟩

/-- C10: once the lookup resolves to an identifier, every post of
`GetRemediationByApp` goes to
`api/v2/components/remediation/application/<id>?stageId=<stage>` and every post
of `GetRemediationByOrg` to
`api/v2/components/remediation/organization/<id>?stageId=<stage>`, for every
stage string, unchanged; when the component serializes, exactly one such post is
made, with the serialized component as its body. -/
theorem C10_endpoint_format {C : Type} (json : JSON C) (iq : IQ) (component : C)
    (stage : String) :
    (∀ applicationID app, iq.GetApplicationByPublicID applicationID = .ok app →
      (∀ p ∈ (GetRemediationByApp json iq component stage applicationID).posts,
        p.1 = "api/v2/components/remediation/application/" ++ app.ID ++ "?stageId=" ++ stage) ∧
      (∀ request, json.Marshal component = .ok request →
        (GetRemediationByApp json iq component stage applicationID).posts =
          [("api/v2/components/remediation/application/" ++ app.ID ++ "?stageId=" ++ stage,
            request)])) ∧
    (∀ organizationName org, iq.GetOrganizationByName organizationName = .ok org →
      (∀ p ∈ (GetRemediationByOrg json iq component stage organizationName).posts,
        p.1 = "api/v2/components/remediation/organization/" ++ org.ID ++ "?stageId=" ++ stage) ∧
      (∀ request, json.Marshal component = .ok request →
        (GetRemediationByOrg json iq component stage organizationName).posts =
          [("api/v2/components/remediation/organization/" ++ org.ID ++ "?stageId=" ++ stage,
            request)])) := by
  constructor
  · intro applicationID app hok
    simp only [GetRemediationByApp, hok, Sprintf_restRemediationByApp]
    exact getRemediation_posts json iq component _
  · intro organizationName org hok
    simp only [GetRemediationByOrg, hok, Sprintf_restRemediationByOrg]
    exact getRemediation_posts json iq component _

/-- With a client whose lookups resolve, the one post of each call goes to the
formatted endpoint; the stage is an arbitrary string. -/
theorem C10_endpoint_format_witness :
    (GetRemediationByApp jsonSample iqResolving 7 "not a stage/%s?" "app").posts =
      [("api/v2/components/remediation/application/4bb67dcfc86344e3a483832f8c496419?stageId=not a stage/%s?",
        [7])] ∧
    (GetRemediationByOrg jsonSample iqResolving 7 "build" "org").posts =
      [("api/v2/components/remediation/organization/ROOT_ORGANIZATION_ID?stageId=build", [7])] :=
  ⟨((C10_endpoint_format jsonSample iqResolving 7 "not a stage/%s?").1 "app" _ rfl).2 _ rfl,
   ((C10_endpoint_format jsonSample iqResolving 7 "build").2 "org" _ rfl).2 _ rfl⟩

end nexusiq

/-! ## Shared lemmas: the creation primitive named by a template and a statement -/

namespace nexusrm

/-- Every template is the primitive name of its kind and format followed by
the argument part of its kind. -/
theorem templateOf_eq (k : Kind) (format : repositoryFormat) (h : format.isEnumerated = true) :
    templateOf k format = "repository.create" ++ format.name ++ k.name ++ templateArgs k := by
  cases k <;> cases format <;> first | decide | simp [repositoryFormat.isEnumerated] at h

/-- The primitive names of the thirty-six combinations are pairwise distinct. -/
theorem primitive_injective (k1 k2 : Kind) (f1 f2 : repositoryFormat)
    (h1 : f1.isEnumerated = true) (h2 : f2.isEnumerated = true)
    (heq : "repository.create" ++ f1.name ++ k1.name = "repository.create" ++ f2.name ++ k2.name) :
    k1 = k2 ∧ f1 = f2 := by
  cases f1 <;> first
    | (simp [repositoryFormat.isEnumerated] at h1; done)
    | (cases f2 <;> first
        | (simp [repositoryFormat.isEnumerated] at h2; done)
        | (cases k1 <;> cases k2 <;> first
            | exact ⟨rfl, rfl⟩
            | exact absurd heq (by decide)))

end nexusrm

namespace nexusrm

/-- The part of a text before its first opening parenthesis, when the text is
a parenthesis-free head followed by a parenthesis. -/
theorem takeWhile_head (pre rest : List Char) (hpre : ∀ c ∈ pre, c ≠ '(') :
    (pre ++ '(' :: rest).takeWhile (fun c => decide (c ≠ '(')) = pre := by
  induction pre with
  | nil => simp
  | cons c cs ih =>
    have hc : c ≠ '(' := hpre c (List.mem_cons_self c cs)
    have hcs : ∀ d ∈ cs, d ≠ '(' := fun d hd => hpre d (List.mem_cons_of_mem c hd)
    rw [List.cons_append, List.takeWhile_cons_of_pos (by simpa using hc), ih hcs]

/-- No primitive name of the thirty-six combinations holds a parenthesis. -/
theorem primitive_no_paren (k : Kind) (format : repositoryFormat)
    (h : format.isEnumerated = true) :
    ∀ c ∈ ("repository.create" ++ format.name ++ k.name).data, c ≠ '(' := by
  cases k <;> cases format <;> first | decide | simp [repositoryFormat.isEnumerated] at h

/-- A statement begins with its primitive name, up to the first parenthesis. -/
theorem callStatement_head (k : Kind) (format : repositoryFormat) (args : List String)
    (h : format.isEnumerated = true) :
    (callStatement format.name k.name args).data.takeWhile (fun c => decide (c ≠ '(')) =
      ("repository.create" ++ format.name ++ k.name).data := by
  have hshape : (callStatement format.name k.name args).data =
      ("repository.create" ++ format.name ++ k.name).data ++ '(' :: (argList args ++ ")").data := by
    simp [callStatement, String.data_append, List.append_assoc]
  rw [hshape]
  exact takeWhile_head _ _ (primitive_no_paren k format h)

/-- A template begins with its primitive name, up to the first parenthesis. -/
theorem templateOf_head (k : Kind) (format : repositoryFormat) (h : format.isEnumerated = true) :
    (templateOf k format).data.takeWhile (fun c => decide (c ≠ '(')) =
      ("repository.create" ++ format.name ++ k.name).data := by
  have hargs : ∃ rest : List Char, (templateArgs k).data = '(' :: rest := by
    cases k <;> exact ⟨_, rfl⟩
  obtain ⟨rest, hrest⟩ := hargs
  rw [templateOf_eq k format h, String.data_append, hrest]
  exact takeWhile_head _ _ (primitive_no_paren k format h)

/-- For an enumerated format, the call of whichever kind submits exactly one
script, the positional call of the primitive of that kind and format. -/
theorem Create_enumerated (rm : RM) (format : repositoryFormat) (config : Config)
    (h : format.isEnumerated = true) :
    ∃ args : List String, (Create rm format config).submitted =
      [newAnonGroovyScript (callStatement format.name config.kind.name args)] := by
  cases config with
  | hosted c =>
    refine ⟨c.Name :: optionalArg c.BlobStore, ?_⟩
    show (CreateHostedRepository rm format c).submitted = _
    rw [CreateHostedRepository_enumerated rm format c h]
    rfl
  | proxy c =>
    refine ⟨c.Name :: (optionalArg c.RemoteURL ++ optionalArg c.BlobStore), ?_⟩
    show (CreateProxyRepository rm format c).submitted = _
    rw [CreateProxyRepository_enumerated rm format c h]
    rfl
  | group c =>
    refine ⟨c.Name :: (optionalMembers c.Members ++ optionalArg c.BlobStore), ?_⟩
    show (CreateGroupRepository rm format c).submitted = _
    rw [CreateGroupRepository_enumerated rm format c h]
    rfl

end nexusrm

/-! ## Further claims on the repository script builder -/

namespace nexusrm

/-- C11: for every enumerated format and every config, in each of the three
functions the template parses, its one execution against the config succeeds,
and exactly one script is submitted, whose body is the rendered statement. -/
theorem C11_render_once_submit_once (rm : RM) (format : repositoryFormat)
    (hosted : repositoryHosted) (proxy : repositoryProxy) (group : repositoryGroup)
    (h : format.isEnumerated = true) :
    (∃ (tmpl : template.Template) (stmt : String),
      (template.New "hosted").Parse (hostedTemplate format) = .ok tmpl ∧
      tmpl.Execute hosted.toValue = .ok stmt ∧
      (CreateHostedRepository rm format hosted).submitted = [newAnonGroovyScript stmt]) ∧
    (∃ (tmpl : template.Template) (stmt : String),
      (template.New "proxy").Parse (proxyTemplate format) = .ok tmpl ∧
      tmpl.Execute proxy.toValue = .ok stmt ∧
      (CreateProxyRepository rm format proxy).submitted = [newAnonGroovyScript stmt]) ∧
    (∃ (tmpl : template.Template) (stmt : String),
      (template.New "group").Parse (groupTemplate format) = .ok tmpl ∧
      tmpl.Execute group.toValue = .ok stmt ∧
      (CreateGroupRepository rm format group).submitted = [newAnonGroovyScript stmt]) := by
  refine ⟨⟨_, _, hostedTemplate_parse format h, hosted_execute _ _, ?_⟩,
    ⟨_, _, proxyTemplate_parse format h, proxy_execute _ _, ?_⟩,
    ⟨_, _, groupTemplate_parse format h, group_execute _ _, ?_⟩⟩
  · rw [CreateHostedRepository_enumerated rm format hosted h]
    rfl
  · rw [CreateProxyRepository_enumerated rm format proxy h]
    rfl
  · rw [CreateGroupRepository_enumerated rm format group h]
    rfl

/-- At Maven, each of the three functions parses, renders and submits the one
statement. -/
theorem C11_render_once_submit_once_witness :
    repositoryFormat.Maven.isEnumerated = true ∧
    (CreateHostedRepository rmSucceeding .Maven
      { Name := "releases", BlobStore := "default",
        StrictContentTypeValidation := true }).submitted.length = 1 ∧
    (CreateProxyRepository rmSucceeding .Maven
      { Name := "central", RemoteURL := "https://repo1.maven.org/maven2", BlobStore := "",
        StrictContentTypeValidation := true }).submitted.length = 1 ∧
    (CreateGroupRepository rmSucceeding .Maven
      { Name := "public", BlobStore := "", Members := ["releases", "central"] }).submitted.length
      = 1 :=
  have hw := C11_render_once_submit_once rmSucceeding .Maven
    { Name := "releases", BlobStore := "default", StrictContentTypeValidation := true }
    { Name := "central", RemoteURL := "https://repo1.maven.org/maven2", BlobStore := "",
      StrictContentTypeValidation := true }
    { Name := "public", BlobStore := "", Members := ["releases", "central"] } rfl
  ⟨rfl,
   (by obtain ⟨_, _, _, _, hs⟩ := hw.1; rw [hs]; rfl),
   (by obtain ⟨_, _, _, _, hs⟩ := hw.2.1; rw [hs]; rfl),
   (by obtain ⟨_, _, _, _, hs⟩ := hw.2.2; rw [hs]; rfl)⟩

end nexusrm

namespace nexusrm

/-- C12: over the 3 x 12 combinations of kind and enumerated format, the
templates are pairwise distinct (there are 36 of them, without repetition),
each is the primitive name `repository.create<Format><Kind>` of the very format
and kind it is selected for followed by the argument part of its kind, and the
statements submitted for two different combinations differ whatever the two
configs are. -/
theorem C12_dispatch_injective :
    (∀ (k1 k2 : Kind) (f1 f2 : repositoryFormat), f1.isEnumerated = true →
      f2.isEnumerated = true → templateOf k1 f1 = templateOf k2 f2 → k1 = k2 ∧ f1 = f2) ∧
    (allTemplates.length = 36 ∧ allTemplates.Nodup) ∧
    (∀ (k : Kind) (format : repositoryFormat), format.isEnumerated = true →
      templateOf k format = "repository.create" ++ format.name ++ k.name ++ templateArgs k) ∧
    (∀ (rm : RM) (f1 f2 : repositoryFormat) (c1 c2 : Config), f1.isEnumerated = true →
      f2.isEnumerated = true → (c1.kind, f1) ≠ (c2.kind, f2) →
      (Create rm f1 c1).submitted ≠ (Create rm f2 c2).submitted) := by
  refine ⟨?_, ⟨by decide, by decide⟩, templateOf_eq, ?_⟩
  · intro k1 k2 f1 f2 h1 h2 heq
    have hd := congrArg (fun s : String => s.data.takeWhile (fun c => decide (c ≠ '('))) heq
    simp only [templateOf_head _ _ h1, templateOf_head _ _ h2] at hd
    exact primitive_injective k1 k2 f1 f2 h1 h2 (String.ext hd)
  · intro rm f1 f2 c1 c2 h1 h2 hne heq
    obtain ⟨a1, e1⟩ := Create_enumerated rm f1 c1 h1
    obtain ⟨a2, e2⟩ := Create_enumerated rm f2 c2 h2
    rw [e1, e2] at heq
    have hs : callStatement f1.name c1.kind.name a1 = callStatement f2.name c2.kind.name a2 := by
      simpa [newAnonGroovyScript] using heq
    have hd := congrArg (fun s : String => s.data.takeWhile (fun c => decide (c ≠ '('))) hs
    simp only [callStatement_head _ _ _ h1, callStatement_head _ _ _ h2] at hd
    obtain ⟨hk, hf⟩ := primitive_injective c1.kind c2.kind f1 f2 h1 h2 (String.ext hd)
    exact hne (by rw [hk, hf])

/-- The same hosted config under Maven and under Npm, and the same name under
the hosted and the proxy function, give different statements. -/
theorem C12_dispatch_injective_witness :
    (Create rmSucceeding .Maven (.hosted
        { Name := "releases", BlobStore := "", StrictContentTypeValidation := false })).submitted ≠
      (Create rmSucceeding .Npm (.hosted
        { Name := "releases", BlobStore := "", StrictContentTypeValidation := false })).submitted ∧
    (Create rmSucceeding .Maven (.hosted
        { Name := "releases", BlobStore := "", StrictContentTypeValidation := false })).submitted ≠
      (Create rmSucceeding .Maven (.proxy
        { Name := "releases", RemoteURL := "", BlobStore := "",
          StrictContentTypeValidation := false })).submitted :=
  ⟨C12_dispatch_injective.2.2.2 rmSucceeding .Maven .Npm _ _ rfl rfl (by decide),
   C12_dispatch_injective.2.2.2 rmSucceeding .Maven .Maven _ _ rfl rfl (by decide)⟩

end nexusrm

namespace nexusrm

/-- C13 (the claim fails as stated): with the empty name and the format Maven,
each of the three functions submits a script, whose statement has the empty
string as its first quoted argument. -/
theorem C13_empty_name_counterexample :
    (CreateHostedRepository rmSucceeding .Maven
      { Name := "", BlobStore := "", StrictContentTypeValidation := false }).submitted =
      [{ Content := "repository.createMavenHosted('')" }] ∧
    (CreateProxyRepository rmSucceeding .Maven
      { Name := "", RemoteURL := "", BlobStore := "",
        StrictContentTypeValidation := false }).submitted =
      [{ Content := "repository.createMavenProxy('')" }] ∧
    (CreateGroupRepository rmSucceeding .Maven
      { Name := "", BlobStore := "", Members := [] }).submitted =
      [{ Content := "repository.createMavenGroup('')" }] ∧
    (CreateHostedRepository rmSucceeding .Maven
      { Name := "", BlobStore := "", StrictContentTypeValidation := false }).submitted ≠ [] := by
  decide

/-- C13 (as amended): the name is not checked. For every enumerated format and
every config whose name is empty, each of the three functions submits exactly
one script, the positional call whose first quoted argument is the empty string,
followed by the optional arguments of the config. -/
theorem C13_empty_name_still_submitted (rm : RM) (format : repositoryFormat)
    (hosted : repositoryHosted) (proxy : repositoryProxy) (group : repositoryGroup)
    (h : format.isEnumerated = true) (hh : hosted.Name = "") (hp : proxy.Name = "")
    (hg : group.Name = "") :
    (CreateHostedRepository rm format hosted).submitted =
      [newAnonGroovyScript
        (callStatement format.name "Hosted" ("" :: optionalArg hosted.BlobStore))] ∧
    (CreateProxyRepository rm format proxy).submitted =
      [newAnonGroovyScript
        (callStatement format.name "Proxy"
          ("" :: (optionalArg proxy.RemoteURL ++ optionalArg proxy.BlobStore)))] ∧
    (CreateGroupRepository rm format group).submitted =
      [newAnonGroovyScript
        (callStatement format.name "Group"
          ("" :: (optionalMembers group.Members ++ optionalArg group.BlobStore)))] := by
  rw [CreateHostedRepository_enumerated rm format hosted h,
    CreateProxyRepository_enumerated rm format proxy h,
    CreateGroupRepository_enumerated rm format group h, hh, hp, hg]
  exact ⟨rfl, rfl, rfl⟩

/-- At Npm with empty names: the three submitted statements, with and without
optional arguments. -/
theorem C13_empty_name_still_submitted_witness :
    repositoryFormat.Npm.isEnumerated = true ∧
    (CreateHostedRepository rmSucceeding .Npm
      { Name := "", BlobStore := "default", StrictContentTypeValidation := false }).submitted =
      [{ Content := "repository.createNpmHosted('', 'default')" }] ∧
    (CreateProxyRepository rmSucceeding .Npm
      { Name := "", RemoteURL := "", BlobStore := "",
        StrictContentTypeValidation := false }).submitted =
      [{ Content := "repository.createNpmProxy('')" }] ∧
    (CreateGroupRepository rmSucceeding .Npm
      { Name := "", BlobStore := "", Members := ["a"] }).submitted =
      [{ Content := "repository.createNpmGroup('', '[a]')" }] :=
  ⟨rfl,
   C13_empty_name_still_submitted rmSucceeding .Npm
     { Name := "", BlobStore := "default", StrictContentTypeValidation := false }
     { Name := "", RemoteURL := "", BlobStore := "", StrictContentTypeValidation := false }
     { Name := "", BlobStore := "", Members := ["a"] } rfl rfl rfl rfl⟩

/-- C14: for every enumerated format, every name and every non-empty string
`x`, the proxy config with only the blob store `x` and the proxy config with
only the remote URL `x` are submitted as the same statement,
`repository.create<Format>Proxy('<name>', '<x>')`. -/
theorem C14_proxy_optional_slots_collide (rm : RM) (format : repositoryFormat)
    (name x : String) (s1 s2 : Bool) (h : format.isEnumerated = true) (hx : x ≠ "") :
    (CreateProxyRepository rm format
      { Name := name, RemoteURL := "", BlobStore := x,
        StrictContentTypeValidation := s1 }).submitted =
      [newAnonGroovyScript
        ("repository.create" ++ format.name ++ "Proxy('" ++ name ++ "', '" ++ x ++ "')")] ∧
    (CreateProxyRepository rm format
      { Name := name, RemoteURL := x, BlobStore := "",
        StrictContentTypeValidation := s2 }).submitted =
      [newAnonGroovyScript
        ("repository.create" ++ format.name ++ "Proxy('" ++ name ++ "', '" ++ x ++ "')")] := by
  have e1 : "Proxy('" = "Proxy" ++ ("(" ++ "'") := by decide
  have e2 : "')" = "'" ++ ")" := by decide
  have e3 : "', '" = "'" ++ (", " ++ "'") := by decide
  rw [CreateProxyRepository_enumerated rm format _ h,
    CreateProxyRepository_enumerated rm format _ h]
  constructor <;>
    simp only [callStatement, optionalArg, hx, if_true, if_false, argList, quoted, e1, e2, e3,
      String.append_assoc, List.nil_append, List.append_nil, List.singleton_append]

/-- At Docker, the blob store `default` alone and the remote URL `default`
alone give the same statement. -/
theorem C14_proxy_optional_slots_collide_witness :
    (repositoryFormat.Docker.isEnumerated = true ∧ "default" ≠ "") ∧
    (CreateProxyRepository rmSucceeding .Docker
      { Name := "hub", RemoteURL := "", BlobStore := "default",
        StrictContentTypeValidation := true }).submitted =
      [{ Content := "repository.createDockerProxy('hub', 'default')" }] ∧
    (CreateProxyRepository rmSucceeding .Docker
      { Name := "hub", RemoteURL := "default", BlobStore := "",
        StrictContentTypeValidation := true }).submitted =
      [{ Content := "repository.createDockerProxy('hub', 'default')" }] :=
  ⟨⟨rfl, by decide⟩,
   C14_proxy_optional_slots_collide rmSucceeding .Docker "hub" "default" true true rfl
     (by decide)⟩

end nexusrm

namespace nexusrm

/-- C15: for every enumerated format, every hosted config is submitted with its
fields copied verbatim between single quotes, nothing quoted or escaped; so the
config with the name `a', 'b` and no blob store and the config with the name `a`
and the blob store `b`, two different configs, are both submitted as
`repository.create<Format>Hosted('a', 'b')`. -/
theorem C15_no_escaping_collision (rm : RM) (format : repositoryFormat) (s1 s2 : Bool)
    (h : format.isEnumerated = true) :
    (∀ config : repositoryHosted,
      (CreateHostedRepository rm format config).submitted =
        [newAnonGroovyScript
          ("repository.create" ++ format.name ++ "Hosted(" ++ "'" ++ config.Name ++ "'" ++
            (if config.BlobStore = "" then "" else ", " ++ "'" ++ config.BlobStore ++ "'") ++
            ")")]) ∧
    (CreateHostedRepository rm format
      { Name := "a', 'b", BlobStore := "", StrictContentTypeValidation := s1 }).submitted =
      [newAnonGroovyScript ("repository.create" ++ format.name ++ "Hosted('a', 'b')")] ∧
    (CreateHostedRepository rm format
      { Name := "a", BlobStore := "b", StrictContentTypeValidation := s2 }).submitted =
      [newAnonGroovyScript ("repository.create" ++ format.name ++ "Hosted('a', 'b')")] ∧
    ({ Name := "a', 'b", BlobStore := "", StrictContentTypeValidation := s1 } :
      repositoryHosted) ≠ { Name := "a", BlobStore := "b", StrictContentTypeValidation := s2 } := by
  have e0 : "Hosted(" = "Hosted" ++ "(" := by decide
  have e1 : "Hosted('a', 'b')" = "Hosted" ++ ("(" ++ ("'" ++ ("a', 'b" ++ ("'" ++ ")")))) := by
    decide
  have e2 : "Hosted('a', 'b')" =
      "Hosted" ++ ("(" ++ ("'" ++ ("a" ++ ("'" ++ (", " ++ ("'" ++ ("b" ++ ("'" ++ ")")))))))) := by
    decide
  have hb : "b" ≠ "" := by decide
  refine ⟨?_, ?_, ?_, ?_⟩
  · intro config
    rw [CreateHostedRepository_enumerated rm format config h]
    by_cases hc : config.BlobStore = "" <;>
      simp only [callStatement, optionalArg, hc, if_true, if_false, argList, quoted, e0,
        String.append_assoc, String.empty_append]
  · rw [CreateHostedRepository_enumerated rm format _ h]
    simp only [callStatement, optionalArg, if_true, argList, quoted, String.append_assoc]
    rw [e1]
  · rw [CreateHostedRepository_enumerated rm format _ h]
    simp only [callStatement, optionalArg, hb, if_false, argList, quoted, String.append_assoc]
    rw [e2]
  · intro heq
    have hn := congrArg repositoryHosted.BlobStore heq
    exact hb hn.symm

/-- At Raw, the two different configs give the one statement. -/
theorem C15_no_escaping_collision_witness :
    repositoryFormat.Raw.isEnumerated = true ∧
    (CreateHostedRepository rmSucceeding .Raw
      { Name := "a', 'b", BlobStore := "", StrictContentTypeValidation := false }).submitted =
      [{ Content := "repository.createRawHosted('a', 'b')" }] ∧
    (CreateHostedRepository rmSucceeding .Raw
      { Name := "a", BlobStore := "b", StrictContentTypeValidation := false }).submitted =
      [{ Content := "repository.createRawHosted('a', 'b')" }] :=
  ⟨rfl,
   (C15_no_escaping_collision rmSucceeding .Raw false false rfl).2.1,
   (C15_no_escaping_collision rmSucceeding .Raw false false rfl).2.2.1⟩

/-- C16: for every enumerated format, name and blob store, the members list is
submitted as one quoted argument, the members separated by single spaces inside
square brackets; the group config with the one member `a b` and the group config
with the two members `a` and `b` are submitted as the same statement, whose
members argument is `[a b]`. -/
theorem C16_members_boundaries_lost (rm : RM) (format : repositoryFormat)
    (name blobStore : String) (h : format.isEnumerated = true) :
    (CreateGroupRepository rm format
      { Name := name, BlobStore := blobStore, Members := ["a b"] }).submitted =
      [newAnonGroovyScript
        (callStatement format.name "Group" (name :: "[a b]" :: optionalArg blobStore))] ∧
    (CreateGroupRepository rm format
      { Name := name, BlobStore := blobStore, Members := ["a", "b"] }).submitted =
      [newAnonGroovyScript
        (callStatement format.name "Group" (name :: "[a b]" :: optionalArg blobStore))] := by
  have e1 : optionalMembers ["a b"] = ["[a b]"] := by decide
  have e2 : optionalMembers ["a", "b"] = ["[a b]"] := by decide
  rw [CreateGroupRepository_enumerated rm format _ h,
    CreateGroupRepository_enumerated rm format _ h]
  simp only [e1, e2, List.singleton_append, and_self]

/-- At Pypi with the name `all` and no blob store, one member `a b` and two
members `a`, `b` both give `repository.createPypiGroup('all', '[a b]')`. -/
theorem C16_members_boundaries_lost_witness :
    repositoryFormat.Pypi.isEnumerated = true ∧
    (CreateGroupRepository rmSucceeding .Pypi
      { Name := "all", BlobStore := "", Members := ["a b"] }).submitted =
      [{ Content := "repository.createPypiGroup('all', '[a b]')" }] ∧
    (CreateGroupRepository rmSucceeding .Pypi
      { Name := "all", BlobStore := "", Members := ["a", "b"] }).submitted =
      [{ Content := "repository.createPypiGroup('all', '[a b]')" }] :=
  ⟨rfl, C16_members_boundaries_lost rmSucceeding .Pypi "all" "" rfl⟩

/-- C17: for every enumerated format, two hosted configs with the same name
and blob store, and two proxy configs with the same name, remote URL and blob
store, are submitted as the same statement whatever their
`StrictContentTypeValidation` flags are. -/
theorem C17_strict_flag_ignored (rm : RM) (format : repositoryFormat)
    (name remoteURL blobStore : String) (s1 s2 : Bool) (h : format.isEnumerated = true) :
    (CreateHostedRepository rm format
      { Name := name, BlobStore := blobStore, StrictContentTypeValidation := s1 }).submitted =
      (CreateHostedRepository rm format
        { Name := name, BlobStore := blobStore, StrictContentTypeValidation := s2 }).submitted ∧
    (CreateProxyRepository rm format
      { Name := name, RemoteURL := remoteURL, BlobStore := blobStore,
        StrictContentTypeValidation := s1 }).submitted =
      (CreateProxyRepository rm format
        { Name := name, RemoteURL := remoteURL, BlobStore := blobStore,
          StrictContentTypeValidation := s2 }).submitted := by
  rw [CreateHostedRepository_enumerated rm format _ h,
    CreateHostedRepository_enumerated rm format _ h,
    CreateProxyRepository_enumerated rm format _ h,
    CreateProxyRepository_enumerated rm format _ h]
  exact ⟨rfl, rfl⟩

/-- At Yum, the flag set and the flag cleared give the same statements. -/
theorem C17_strict_flag_ignored_witness :
    repositoryFormat.Yum.isEnumerated = true ∧
    (CreateHostedRepository rmSucceeding .Yum
      { Name := "rpms", BlobStore := "default", StrictContentTypeValidation := true }).submitted =
      (CreateHostedRepository rmSucceeding .Yum
        { Name := "rpms", BlobStore := "default",
          StrictContentTypeValidation := false }).submitted ∧
    (CreateProxyRepository rmSucceeding .Yum
      { Name := "rpms", RemoteURL := "https://mirror.example/yum", BlobStore := "default",
        StrictContentTypeValidation := true }).submitted =
      (CreateProxyRepository rmSucceeding .Yum
        { Name := "rpms", RemoteURL := "https://mirror.example/yum", BlobStore := "default",
          StrictContentTypeValidation := false }).submitted :=
  ⟨rfl,
   C17_strict_flag_ignored rmSucceeding .Yum "rpms" "https://mirror.example/yum" "default"
     true false rfl⟩

end nexusrm

/-! ## Shared lemmas: the equality loop when `Component.Equals` may panic -/

namespace nexusiq.withPanics

/-- A comparison of two version changes can only panic inside
`Component.Equals`. -/
theorem versionChange_panic {C : Type} (cpeq : C → C → Option Bool) (same : Bool)
    (x y : remediationVersionChange C) (p : Panic)
    (hp : remediationVersionChange.Equals cpeq same x y = .error p) :
    p = Panic.inComponentEquals := by
  unfold remediationVersionChange.Equals remediationData.Equals at hp
  cases same <;> by_cases ht : x.Type_ = y.Type_ <;>
    cases hc : cpeq x.Data.Component y.Data.Component with
    | none => simp [ht, hc] at hp <;> exact hp.symm
    | some r => cases r <;> simp [ht, hc] at hp

/-- A comparison of two version changes returns when the one call of
`Component.Equals` it may make returns. -/
theorem versionChange_returns {C : Type} (cpeq : C → C → Option Bool) (same : Bool)
    (x y : remediationVersionChange C) (hc : cpeq x.Data.Component y.Data.Component ≠ none) :
    ∃ r : Bool, remediationVersionChange.Equals cpeq same x y = .ok r := by
  unfold remediationVersionChange.Equals remediationData.Equals
  cases hv : cpeq x.Data.Component y.Data.Component with
  | none => exact absurd hv hc
  | some r =>
    cases same <;> by_cases ht : x.Type_ = y.Type_ <;> cases r <;> simp [ht]

/-- When the elements still to visit are as many as the elements of `bs` from
index `i` on, the loop never indexes out of range: its only panic is one of
`Component.Equals`. -/
theorem loop_panic {C : Type} (cpeq : C → C → Option Bool)
    (bs : List (remediationVersionChange C)) :
    ∀ (vs : List (remediationVersionChange C)) (i : Nat), vs.length + i = bs.length →
      ∀ p : Panic, Remediation.Equals.loop cpeq bs i vs = .error p →
        p = Panic.inComponentEquals := by
  intro vs
  induction vs with
  | nil =>
    intro i _ p hp
    simp [Remediation.Equals.loop] at hp
  | cons v vs ih =>
    intro i hlen p hp
    have hi : i < bs.length := by simp at hlen; omega
    have hget : bs[i]? = some bs[i] := List.getElem?_eq_getElem hi
    unfold Remediation.Equals.loop at hp
    rw [hget] at hp
    simp only [] at hp
    cases hv : remediationVersionChange.Equals cpeq false v bs[i] with
    | error q =>
      rw [hv] at hp
      simp only [Except.error.injEq] at hp
      rw [← hp]
      exact versionChange_panic cpeq false v bs[i] q hv
    | ok r =>
      rw [hv] at hp
      cases r with
      | false => simp at hp
      | true =>
        simp only [Bool.not_true, Bool.false_eq_true, if_false] at hp
        exact ih (i + 1) (by simp at hlen; omega) p hp

/-- Under the same condition on the lengths, the loop returns a boolean when
every call of `Component.Equals` on two components at the same index returns. -/
theorem loop_returns {C : Type} (cpeq : C → C → Option Bool)
    (bs : List (remediationVersionChange C)) :
    ∀ (vs : List (remediationVersionChange C)) (i : Nat), vs.length + i = bs.length →
      (∀ (k : Nat) (x y : remediationVersionChange C), vs[k]? = some x → bs[i + k]? = some y →
        cpeq x.Data.Component y.Data.Component ≠ none) →
      ∃ r : Bool, Remediation.Equals.loop cpeq bs i vs = .ok r := by
  intro vs
  induction vs with
  | nil =>
    intro i _ _
    exact ⟨true, rfl⟩
  | cons v vs ih =>
    intro i hlen hret
    have hi : i < bs.length := by simp at hlen; omega
    have hget : bs[i]? = some bs[i] := List.getElem?_eq_getElem hi
    obtain ⟨r, hr⟩ := versionChange_returns cpeq false v bs[i]
      (hret 0 v bs[i] (by simp) (by simp))
    unfold Remediation.Equals.loop
    rw [hget]
    simp only []
    rw [hr]
    cases r with
    | false => exact ⟨false, by simp⟩
    | true =>
      simp only [Bool.not_true, Bool.false_eq_true, if_false]
      exact ih (i + 1) (by simp at hlen; omega)
        (fun k x y hx hy => hret (k + 1) x y (by simpa using hx)
          (by rw [← hy]; congr 1; omega))

/-- With a `Component.Equals` that always returns, the loop is the loop of the
embedding in which `Component.Equals` is a total function. -/
theorem loop_of_total {C : Type} (ceq : C → C → Bool)
    (bs : List (remediationVersionChange C)) :
    ∀ (vs : List (remediationVersionChange C)) (i : Nat),
      (Remediation.Equals.loop (fun x y => some (ceq x y)) bs i vs).toOption =
        nexusiq.Remediation.Equals.loop ceq bs i vs := by
  intro vs
  induction vs with
  | nil =>
    intro i
    rfl
  | cons v vs ih =>
    intro i
    unfold Remediation.Equals.loop nexusiq.Remediation.Equals.loop
    cases hget : bs[i]? with
    | none => rfl
    | some bi =>
      have hvc : remediationVersionChange.Equals (fun x y => some (ceq x y)) false v bi =
          .ok (nexusiq.remediationVersionChange.Equals ceq false v bi) := by
        unfold remediationVersionChange.Equals remediationData.Equals
          nexusiq.remediationVersionChange.Equals nexusiq.remediationData.Equals
        by_cases ht : v.Type_ = bi.Type_ <;>
          cases hc : ceq v.Data.Component bi.Data.Component <;> simp [ht, hc]
      simp only [hvc]
      cases nexusiq.remediationVersionChange.Equals ceq false v bi with
      | false => rfl
      | true => simpa using ih (i + 1)

/-- With a `Component.Equals` that always returns, `Remediation.Equals` is the
method of the embedding in which `Component.Equals` is a total function. -/
theorem Equals_of_total {C : Type} (ceq : C → C → Bool) (h : Heap C) (a b : Ptr) :
    (Remediation.Equals (fun x y => some (ceq x y)) h a b).toOption =
      nexusiq.Remediation.Equals ceq h a b := by
  unfold Remediation.Equals nexusiq.Remediation.Equals
  by_cases hab : a = b
  · simp [hab, Except.toOption]
  · simp only [hab, if_false]
    cases deref h a with
    | none => rfl
    | some ra =>
      cases deref h b with
      | none => rfl
      | some rb =>
        by_cases hlen : ra.VersionChanges.length = rb.VersionChanges.length
        · simp only [hlen, ne_eq, not_true_eq_false, if_false]
          exact loop_of_total ceq _ _ 0
        · simp [hlen, Except.toOption]

end nexusiq.withPanics

/-! ## Further claims on the remediation client -/

namespace nexusiq.withPanics

/-- C18 (the claim fails as stated): with a `Component.Equals` that panics when
one component has an identifier and the other has none, comparing two non-nil
`Remediation` values with one version change each panics inside
`Component.Equals`: `a.Equals(b)` returns no boolean. -/
theorem C18_component_panic_counterexample :
    (deref nullableHeap (some 0) =
        some { VersionChanges :=
          [{ Type_ := remediationTypeNoViolations, Data := { Component := some 1 } }] } ∧
      deref nullableHeap (some 1) =
        some { VersionChanges :=
          [{ Type_ := remediationTypeNoViolations, Data := { Component := none } }] }) ∧
    Remediation.Equals nullableEquals nullableHeap (some 0) (some 1) =
      .error Panic.inComponentEquals ∧
    ¬ ∃ r : Bool, Remediation.Equals nullableEquals nullableHeap (some 0) (some 1) = .ok r := by
  have hpanic : Remediation.Equals nullableEquals nullableHeap (some 0) (some 1) =
      .error Panic.inComponentEquals := rfl
  refine ⟨⟨rfl, rfl⟩, hpanic, ?_⟩
  rintro ⟨r, hr⟩
  rw [hpanic] at hr
  cases hr

/-- C18 (as amended): for every two non-nil pointers, whatever
`Component.Equals` does, `a.Equals(b)` never indexes `b.VersionChanges` out of
range and never dereferences nil: the loop is reached only when the two lengths
are equal, and the only panic it can end in is one raised inside
`Component.Equals`. When every call of `Component.Equals` on two components at
the same index returns, `a.Equals(b)` returns a boolean. -/
theorem C18_index_always_in_range {C : Type} (cpeq : C → C → Option Bool) (h : Heap C)
    (a b : Ptr) (ra rb : Remediation C) (ha : deref h a = some ra) (hb : deref h b = some rb) :
    Remediation.Equals cpeq h a b ≠ .error Panic.indexOutOfRange ∧
    Remediation.Equals cpeq h a b ≠ .error Panic.nilDereference ∧
    (a ≠ b → ra.VersionChanges.length ≠ rb.VersionChanges.length →
      Remediation.Equals cpeq h a b = .ok false) ∧
    (a ≠ b → ra.VersionChanges.length = rb.VersionChanges.length →
      Remediation.Equals cpeq h a b =
        Remediation.Equals.loop cpeq rb.VersionChanges 0 ra.VersionChanges) ∧
    ((∀ (i : Nat) (x y : remediationVersionChange C),
        ra.VersionChanges[i]? = some x → rb.VersionChanges[i]? = some y →
          cpeq x.Data.Component y.Data.Component ≠ none) →
      ∃ r : Bool, Remediation.Equals cpeq h a b = .ok r) := by
  have hsame : a = b → Remediation.Equals cpeq h a b = .ok true := by
    intro hab
    simp [Remediation.Equals, hab]
  have hdiff : a ≠ b → ra.VersionChanges.length ≠ rb.VersionChanges.length →
      Remediation.Equals cpeq h a b = .ok false := by
    intro hab hlen
    simp [Remediation.Equals, hab, ha, hb, hlen]
  have hloop : a ≠ b → ra.VersionChanges.length = rb.VersionChanges.length →
      Remediation.Equals cpeq h a b =
        Remediation.Equals.loop cpeq rb.VersionChanges 0 ra.VersionChanges := by
    intro hab hlen
    simp [Remediation.Equals, hab, ha, hb, hlen]
  have honly : ∀ p : Panic, Remediation.Equals cpeq h a b = .error p →
      p = Panic.inComponentEquals := by
    intro p hp
    by_cases hab : a = b
    · rw [hsame hab] at hp
      cases hp
    · by_cases hlen : ra.VersionChanges.length = rb.VersionChanges.length
      · rw [hloop hab hlen] at hp
        exact loop_panic cpeq rb.VersionChanges ra.VersionChanges 0 (by simpa using hlen) p hp
      · rw [hdiff hab hlen] at hp
        cases hp
  refine ⟨?_, ?_, hdiff, hloop, ?_⟩
  · intro hp
    exact absurd (honly _ hp) (by decide)
  · intro hp
    exact absurd (honly _ hp) (by decide)
  · intro hret
    by_cases hab : a = b
    · exact ⟨true, hsame hab⟩
    · by_cases hlen : ra.VersionChanges.length = rb.VersionChanges.length
      · rw [hloop hab hlen]
        exact loop_returns cpeq rb.VersionChanges ra.VersionChanges 0 (by simpa using hlen)
          (fun k x y hx hy => hret k x y hx (by simpa using hy))
      · exact ⟨false, hdiff hab hlen⟩

/-- On the sample heap: the comparison that panics does so inside
`Component.Equals`, not on an index; the comparison of the two objects that
both have the identifier 1 returns a boolean. -/
theorem C18_index_always_in_range_witness :
    (deref nullableHeap (some 0) =
        some { VersionChanges :=
          [{ Type_ := remediationTypeNoViolations, Data := { Component := some 1 } }] } ∧
      deref nullableHeap (some 1) =
        some { VersionChanges :=
          [{ Type_ := remediationTypeNoViolations, Data := { Component := none } }] } ∧
      deref nullableHeap (some 2) =
        some { VersionChanges :=
          [{ Type_ := remediationTypeNoViolations, Data := { Component := some 1 } }] }) ∧
    Remediation.Equals nullableEquals nullableHeap (some 0) (some 1) ≠
      .error Panic.indexOutOfRange ∧
    Remediation.Equals nullableEquals nullableHeap (some 0) (some 2) ≠
      .error Panic.indexOutOfRange ∧
    ∃ r : Bool, Remediation.Equals nullableEquals nullableHeap (some 0) (some 2) = .ok r :=
  ⟨⟨rfl, rfl, rfl⟩,
   (C18_index_always_in_range nullableEquals nullableHeap (some 0) (some 1) _ _ rfl rfl).1,
   (C18_index_always_in_range nullableEquals nullableHeap (some 0) (some 2) _ _ rfl rfl).1,
   (C18_index_always_in_range nullableEquals nullableHeap (some 0) (some 2) _ _ rfl
     rfl).2.2.2.2 (by
       intro i x y hx hy
       cases i with
       | zero =>
         cases hx
         cases hy
         decide
       | succ i => cases hx)⟩

end nexusiq.withPanics
